import Mathlib

/-!
# Execution containers and error collections of the DAAL sources in harp

A shallow embedding of

* `algorithms/kernel/ridge_regression/ridge_regression_train_container.h`
  (the batch, the online and the distributed step-2 container of ridge regression training),
* `harp-daal-app/daal-src/include/services/error_handling.h`
  (`Error`, `KernelErrorCollection`, `ErrorCollection`),
* `harp-daal-app/daal-src/include/algorithms/neural_networks/layers/pooling3d/maximum_pooling3d_layer_types.h`
  (the constructor of `maximum_pooling3d::Parameter`), and
* `lang_service/java/com/intel/daal/data_management/data_source/string_data_source.cpp`
  (the JNI functions `cInit` and `cSetData` of `StringDataSource`),

followed by theorems about them.

Conventions of the embedding.

* A C++ object that a method mutates through a pointer is passed in by value and its new
  contents are returned.  `Model` objects are values of a type `M`, numeric tables values of a
  type `T`, the algorithm parameter a value of a type `P`; all three are arbitrary.
* The kernels (`ridge_regression_train_kernel.h`) and the macros `__DAAL_CALL_KERNEL` and
  `__DAAL_CALL_KERNEL_STATUS` (`kernel.h`) are not part of the sources at hand.  A kernel is a
  parameter of every container method: a record of functions, one per kernel method, that
  returns the new contents of each `Model` it receives a mutable pointer to, and a `Status`.
  The call macros are read as "call that method of the bound kernel".
* Every container method returns, next to the new container state and the `Status`, the list
  of kernel calls it made, in order.
-/

namespace Daal

/-! ## Status -/

/-- Identifier of an error (`ErrorID` of `error_indexes.h`, an enumeration). -/
abbrev ErrorID := Int

/-- Modelled from the spec: `services::Status`, which the containers return and whose
declaration is not in the sources.  It accumulates zero or more errors; empty means success. -/
structure Status where
  errors : List ErrorID
  deriving DecidableEq, Repr

/-- The empty (successful) status. -/
def Status.success : Status := ⟨[]⟩

/-- A status is ok when it carries no error. -/
def Status.ok (s : Status) : Bool := s.errors.isEmpty

/-! ## Arguments of the containers -/

/-- The `Input` of training: `input->get(data)` and `input->get(dependentVariables)`. -/
structure Input (T : Type) where
  data : T
  dependentVariables : T
  deriving DecidableEq, Repr

/-- The `PartialResult` of training: `partialResult->get(training::partialModel)`. -/
structure PartialResult (M : Type) where
  partialModel : M
  deriving DecidableEq, Repr

/-- The `Result` of training: `result->get(training::model)`. -/
structure Result (M : Type) where
  model : M
  deriving DecidableEq, Repr

/-- The `DistributedInput<step2Master>`: `input->get(partialModels)`, a `DataCollection`,
given as the list of its elements in order. -/
structure DistributedInput (M : Type) where
  partialModels : List M
  deriving DecidableEq, Repr

/-! ## Kernels -/

/-- What a kernel `compute` leaves behind: the partial model it was given a pointer to,
and its status. -/
structure ComputeResult (M : Type) where
  partialModel : M
  status : Status
  deriving DecidableEq, Repr

/-- What a kernel `finalizeCompute` leaves behind: the two models it was given pointers
to, and its status. -/
structure FinalizeResult (M : Type) where
  partialModel : M
  model : M
  status : Status
  deriving DecidableEq, Repr

/-- The methods of `internal::RidgeRegressionTrainOnlineKernel` that the online container
calls: `compute(x, y, partialModel, par)` and `finalizeCompute(partialModel, model, par)`. -/
structure OnlineKernel (T M P : Type) where
  compute : T → T → M → P → ComputeResult M
  finalizeCompute : M → M → P → FinalizeResult M

/-- The methods of `internal::RidgeRegressionTrainDistributedKernel` that the distributed
container calls: `compute(n, localModels, partialModel, par)` and
`finalizeCompute(partialModel, model, par)`. -/
structure DistributedKernel (M P : Type) where
  compute : Nat → List M → M → P → ComputeResult M
  finalizeCompute : M → M → P → FinalizeResult M

/-- A call of a method of the online kernel, with its arguments. -/
inductive OnlineCall (T M P : Type) where
  | compute (x y : T) (partialModel : M) (par : P)
  | finalizeCompute (partialModel model : M) (par : P)
  deriving DecidableEq, Repr

/-- A call of a method of the distributed kernel, with its arguments. -/
inductive DistributedCall (M P : Type) where
  | compute (n : Nat) (localModels : List M) (partialModel : M) (par : P)
  | finalizeCompute (partialModel model : M) (par : P)
  deriving DecidableEq, Repr

/-- What a container method returns: the container afterwards, the returned `Status`, and
the kernel calls made during the method, in order. -/
structure Outcome (C K : Type) where
  state : C
  status : Status
  calls : List K

/-! ## Online container -/

/-- The fields of `OnlineContainer` that its methods use: `_in`, `_pres`, `_res`, `_par`. -/
structure OnlineContainer (T M P : Type) where
  _in : Input T
  _pres : PartialResult M
  _res : Result M
  _par : P
  deriving DecidableEq, Repr

/-- Method `OnlineContainer::compute()`. -/
def OnlineContainer.compute {T M P : Type} (kernel : OnlineKernel T M P)
    (c : OnlineContainer T M P) : Outcome (OnlineContainer T M P) (OnlineCall T M P) :=
  let input := c._in
  let partialResult := c._pres
  let x := input.data
  let y := input.dependentVariables
  let partialModel := partialResult.partialModel
  let par := c._par
  let r := kernel.compute x y partialModel par
  { state := { c with _pres := { partialModel := r.partialModel } }
    status := r.status
    calls := [OnlineCall.compute x y partialModel par] }

/-- Method `OnlineContainer::finalizeCompute()`. -/
def OnlineContainer.finalizeCompute {T M P : Type} (kernel : OnlineKernel T M P)
    (c : OnlineContainer T M P) : Outcome (OnlineContainer T M P) (OnlineCall T M P) :=
  let partialResult := c._pres
  let result := c._res
  let partialModel := partialResult.partialModel
  let model := result.model
  let par := c._par
  let r := kernel.finalizeCompute partialModel model par
  { state := { c with _pres := { partialModel := r.partialModel }, _res := { model := r.model } }
    status := r.status
    calls := [OnlineCall.finalizeCompute partialModel model par] }

/-! ## Distributed container, step 2 on the master -/

/-- The fields of `DistributedContainer<step2Master>` that its methods use. -/
structure DistributedContainer (M P : Type) where
  _in : DistributedInput M
  _pres : PartialResult M
  _res : Result M
  _par : P
  deriving DecidableEq, Repr

/-- The array `localModels` after the loop
`for (i = 0; i < n; ++i) localModels[i] = static_cast<Model *>((*collection)[i].get())`
with `n = collection->size()`: `n` slots, slot `i` holding element `i` of the collection. -/
def localModelsOf {M : Type} (collection : List M) : List M :=
  let n := collection.length
  List.ofFn (fun i : Fin n => collection.get i)

/-- Method `DistributedContainer<step2Master>::compute()`. -/
def DistributedContainer.compute {M P : Type} (kernel : DistributedKernel M P)
    (c : DistributedContainer M P) : Outcome (DistributedContainer M P) (DistributedCall M P) :=
  let input := c._in
  let partialResult := c._pres
  let collection := input.partialModels
  let n := collection.length
  let localModels := localModelsOf collection
  let partialModel := partialResult.partialModel
  let par := c._par
  let s := kernel.compute n localModels partialModel par
  -- collection->clear(); delete [] localModels; return s;
  { state := { c with _in := { partialModels := [] }, _pres := { partialModel := s.partialModel } }
    status := s.status
    calls := [DistributedCall.compute n localModels partialModel par] }

/-- Method `DistributedContainer<step2Master>::finalizeCompute()`. -/
def DistributedContainer.finalizeCompute {M P : Type} (kernel : DistributedKernel M P)
    (c : DistributedContainer M P) : Outcome (DistributedContainer M P) (DistributedCall M P) :=
  let partialResult := c._pres
  let result := c._res
  let partialModel := partialResult.partialModel
  let model := result.model
  let par := c._par
  let r := kernel.finalizeCompute partialModel model par
  { state := { c with _pres := { partialModel := r.partialModel }, _res := { model := r.model } }
    status := r.status
    calls := [DistributedCall.finalizeCompute partialModel model par] }

/-! ## Driving a container

The caller of an online container binds a new `Input` and calls `compute()`, once per batch,
and calls `finalizeCompute()` at the end.  The caller of the distributed container binds
the collection of partial models gathered for the round, calls `compute()` and then
`finalizeCompute()`. -/

/-- Bind the batch `b` as the container's `Input`, then call `compute()`. -/
def OnlineContainer.computeOn {T M P : Type} (kernel : OnlineKernel T M P)
    (c : OnlineContainer T M P) (b : Input T) :
    Outcome (OnlineContainer T M P) (OnlineCall T M P) :=
  OnlineContainer.compute kernel { c with _in := b }

/-- The container after `compute()` has been called on each batch of `bs`, in order. -/
def OnlineContainer.computeAll {T M P : Type} (kernel : OnlineKernel T M P)
    (c : OnlineContainer T M P) (bs : List (Input T)) : OnlineContainer T M P :=
  bs.foldl (fun st b => (OnlineContainer.computeOn kernel st b).state) c

/-- The kernel calls made while `compute()` is called on each batch of `bs`, in order. -/
def OnlineContainer.callsOfAll {T M P : Type} (kernel : OnlineKernel T M P) :
    OnlineContainer T M P → List (Input T) → List (OnlineCall T M P)
  | _, [] => []
  | c, b :: bs =>
    (OnlineContainer.computeOn kernel c b).calls ++
      OnlineContainer.callsOfAll kernel (OnlineContainer.computeOn kernel c b).state bs

/-- The `Result` model after `compute()` on each batch of `bs` and then `finalizeCompute()`. -/
def OnlineContainer.train {T M P : Type} (kernel : OnlineKernel T M P)
    (c : OnlineContainer T M P) (bs : List (Input T)) : M :=
  (OnlineContainer.finalizeCompute kernel (OnlineContainer.computeAll kernel c bs)).state._res.model

/-- Bind `collection` as the partial models of the container's input, call `compute()` and
then `finalizeCompute()`; the `Result` model afterwards. -/
def DistributedContainer.train {M P : Type} (kernel : DistributedKernel M P)
    (c : DistributedContainer M P) (collection : List M) : M :=
  (DistributedContainer.finalizeCompute kernel
    (DistributedContainer.compute kernel
      { c with _in := { partialModels := collection } }).state).state._res.model

/-- Row-wise concatenation of two batches: the data tables and the tables of dependent
variables are each appended. -/
def Input.concat {R : Type} (b1 b2 : Input (List R)) : Input (List R) :=
  { data := b1.data ++ b2.data
    dependentVariables := b1.dependentVariables ++ b2.dependentVariables }

/-! ## The kernels, as far as the specification describes them -/

/-- Modelled from the spec: the online kernel of ridge regression training
(`internal::RidgeRegressionTrainOnlineKernel` of `ridge_regression_train_kernel.h`, which is
not in the sources).  The specification says that each `compute()` "folds one new Input batch
into the PartialResult (an incremental/associative merge, e.g. updating running sums of
squares)" and that `finalizeCompute` maps the partial result and the parameters to the result
"without mutating the PartialResult's accumulated statistics".  A table is the list of its
rows.  The partial model is a running sum, in a commutative monoid (exact arithmetic), of a
statistic `stat x y` of every row `x` of the data and the row `y` of the dependent variables
next to it; `solve` computes the model and the status from the partial model and the
parameter.  Neither `stat` nor `solve` is specified.  The sums are exact: this is not the
rounded arithmetic of the single and double precision kernels.  Rows are paired by position,
so of a batch whose two tables differ in length only the rows that have a partner count. -/
def runningSumOnlineKernel {R M P : Type} [AddCommMonoid M] (stat : R → R → M)
    (solve : M → P → M × Status) : OnlineKernel (List R) M P where
  compute x y partialModel _ :=
    { partialModel := partialModel + (List.zipWith stat x y).sum
      status := Status.success }
  finalizeCompute partialModel _ par :=
    { partialModel := partialModel
      model := (solve partialModel par).1
      status := (solve partialModel par).2 }

/-- Modelled from the spec: the aggregation kernel of ridge regression training
(`internal::RidgeRegressionTrainDistributedKernel` of `ridge_regression_train_kernel.h`,
which is not in the sources).  The specification says that it "folds" the local models
"into one master partial result", with a merge that is order-independent under exact
arithmetic, and that `finalizeCompute` behaves as in online mode.  The local models are
added, in the order given, to the master's partial model, in a commutative monoid.  The
sums are exact: this is not the rounded arithmetic of the single and double precision
kernels. -/
def runningSumDistributedKernel {M P : Type} [AddCommMonoid M]
    (solve : M → P → M × Status) : DistributedKernel M P where
  compute _ localModels partialModel _ :=
    { partialModel := localModels.foldl (fun acc m => acc + m) partialModel
      status := Status.success }
  finalizeCompute partialModel _ par :=
    { partialModel := partialModel
      model := (solve partialModel par).1
      status := (solve partialModel par).2 }

/-! ## Errors and error collections (`error_handling.h`) -/

/-- Modelled from the spec: a detail of an error (`ErrorDetail` of `error_id.h`, not in the
sources): an identifier with an integer, a floating-point or a string value.  A
floating-point value is kept as its 64 bits. -/
inductive ErrorDetail where
  | int (id : Int) (value : Int)
  | double (id : Int) (bits : Nat)
  | string (id : Int) (value : String)
  deriving DecidableEq, Repr

/-- The fields of `class Error`: `_id` and the list `_details`. -/
structure Error where
  _id : ErrorID
  _details : List ErrorDetail
  deriving DecidableEq, Repr

/-- Modelled from the spec: the constructor `Error(const ErrorID id)`, declared in the header
and defined elsewhere: an error with that identifier and no details. -/
def Error.ofId (id : ErrorID) : Error := { _id := id, _details := [] }

/-- Method `Error::id()`. -/
def Error.id (e : Error) : ErrorID := e._id

/-- The `struct Exception`: its `_description`. -/
structure Exception where
  _description : String
  deriving DecidableEq, Repr

/-- Method `Exception::getException(description)`. -/
def Exception.getException (description : String) : Exception := { _description := description }

/-- Method `Exception::what()`. -/
def Exception.what (e : Exception) : String := e._description

/-- The `class KernelErrorCollection : private Collection<SharedPtr<Error>>`: the elements of the
base collection, in order.  The `mutable` cache `_description` is left out. -/
structure KernelErrorCollection where
  items : List Error
  deriving DecidableEq, Repr

/-- Modelled from the spec: `KernelErrorCollection::size()`, declared in the header and
defined elsewhere: the number of errors collected. -/
def KernelErrorCollection.size (k : KernelErrorCollection) : Nat := k.items.length

/-- Method `KernelErrorCollection::isEmpty()`: `size() == 0`. -/
def KernelErrorCollection.isEmpty (k : KernelErrorCollection) : Bool := k.size == 0

/-- Modelled from the spec: `KernelErrorCollection::add(const ErrorPtr &e)`, declared in the
header ("adds error to kernel error collection") and defined elsewhere: `e` becomes the last
element. -/
def KernelErrorCollection.addError (k : KernelErrorCollection) (e : Error) :
    KernelErrorCollection :=
  { items := k.items ++ [e] }

/-- Modelled from the spec: `KernelErrorCollection::add(const ErrorID &id)`, declared in the
header ("adds error id to kernel error collection", returning "the new error") and defined
elsewhere: a new error with that identifier becomes the last element. -/
def KernelErrorCollection.add (k : KernelErrorCollection) (id : ErrorID) :
    KernelErrorCollection :=
  k.addError (Error.ofId id)

/-- What the header leaves open: whether the macro `DAAL_NOTHROW_EXCEPTIONS` is defined when
it is compiled, and `KernelErrorCollection::getDescription()`, which is declared in the
header and defined elsewhere. -/
structure Env where
  DAAL_NOTHROW_EXCEPTIONS : Bool
  getDescription : KernelErrorCollection → String

/-- A `KernelErrorCollectionPtr`: the address of a `KernelErrorCollection` object. -/
abbrev KernelErrorCollectionPtr := Nat

/-- The `KernelErrorCollection` objects of the process: the object at each address, and the
address the next `new KernelErrorCollection()` returns. -/
structure Heap where
  next : KernelErrorCollectionPtr
  cell : KernelErrorCollectionPtr → KernelErrorCollection

/-- A heap on which nothing has been allocated yet. -/
def Heap.empty : Heap := { next := 0, cell := fun _ => { items := [] } }

/-- The heap after the object at address `p` has been replaced by `k`. -/
def Heap.store (h : Heap) (p : KernelErrorCollectionPtr) (k : KernelErrorCollection) : Heap :=
  { h with cell := fun q => if q = p then k else h.cell q }

/-- The fields of `class ErrorCollection`: the shared pointer `_errors` and `_canThrow`. -/
structure ErrorCollection where
  _errors : KernelErrorCollectionPtr
  _canThrow : Bool
  deriving DecidableEq, Repr

/-- The constructor `ErrorCollection()`:
`_errors(new KernelErrorCollection()), _canThrow(true)`. -/
def ErrorCollection.construct (h : Heap) : Heap × ErrorCollection :=
  ({ next := h.next + 1, cell := (h.store h.next { items := [] }).cell },
   { _errors := h.next, _canThrow := true })

/-- Method `ErrorCollection::getErrors()`. -/
def ErrorCollection.getErrors (self : ErrorCollection) : KernelErrorCollectionPtr := self._errors

/-- The copy constructor `ErrorCollection(const ErrorCollection &o)`:
`_errors(o.getErrors()), _canThrow(o._canThrow)`. -/
def ErrorCollection.copyConstruct (o : ErrorCollection) : ErrorCollection :=
  { _errors := o.getErrors, _canThrow := o._canThrow }

/-- Method `ErrorCollection::size()`: `_errors->size()`. -/
def ErrorCollection.size (h : Heap) (self : ErrorCollection) : Nat := (h.cell self._errors).size

/-- Method `ErrorCollection::isEmpty()`: `_errors->isEmpty()`. -/
def ErrorCollection.isEmpty (h : Heap) (self : ErrorCollection) : Bool :=
  (h.cell self._errors).isEmpty

/-- Method `ErrorCollection::getDescription()`: `_errors->getDescription()`. -/
def ErrorCollection.getDescription (env : Env) (h : Heap) (self : ErrorCollection) : String :=
  env.getDescription (h.cell self._errors)

/-- Method `ErrorCollection::canThrow()`. -/
def ErrorCollection.canThrow (self : ErrorCollection) : Bool := self._canThrow

/-- Method `ErrorCollection::setCanThrow(bOn)`: the previous value, and the object afterwards. -/
def ErrorCollection.setCanThrow (self : ErrorCollection) (bOn : Bool) : Bool × ErrorCollection :=
  let bVal := self._canThrow
  (bVal, { self with _canThrow := bOn })

/-- How a call of `add` ends: the heap afterwards, and the exception thrown, if any. -/
structure AddOutcome where
  heap : Heap
  thrown : Option Exception

/-- The tail that the `add` methods share, after the error has been stored: unless
`DAAL_NOTHROW_EXCEPTIONS` is defined, `if(_canThrow) throw
Exception::getException(getDescription());`. -/
def ErrorCollection.throwIfCan (env : Env) (h : Heap) (self : ErrorCollection) : AddOutcome :=
  if env.DAAL_NOTHROW_EXCEPTIONS then
    { heap := h, thrown := none }
  else if self._canThrow then
    { heap := h, thrown := some (Exception.getException (self.getDescription env h)) }
  else
    { heap := h, thrown := none }

/-- Method `ErrorCollection::add(const ErrorID &id)`. -/
def ErrorCollection.add (env : Env) (h : Heap) (self : ErrorCollection) (id : ErrorID) :
    AddOutcome :=
  let h1 := h.store self._errors ((h.cell self._errors).add id)
  self.throwIfCan env h1

/-- Method `ErrorCollection::add(const ErrorPtr &e)`. -/
def ErrorCollection.addError (env : Env) (h : Heap) (self : ErrorCollection) (e : Error) :
    AddOutcome :=
  let h1 := h.store self._errors ((h.cell self._errors).addError e)
  self.throwIfCan env h1

/-- Whether a call of `add` raised an exception. -/
def AddOutcome.raised (o : AddOutcome) : Bool := o.thrown.isSome

/-- An `ErrorCollection` is in throw mode when exceptions are compiled in and `canThrow()`
is true. -/
def ErrorCollection.throwMode (env : Env) (self : ErrorCollection) : Bool :=
  !env.DAAL_NOTHROW_EXCEPTIONS && self.canThrow

/-! ## Batch container -/

/-- What the batch kernel's `compute` leaves behind: the model it was given a pointer to,
and its status. -/
structure TrainResult (M : Type) where
  model : M
  status : Status
  deriving DecidableEq, Repr

/-- The method of `internal::RidgeRegressionTrainBatchKernel` that the batch container
calls: `compute(x, y, r, par)`. -/
structure BatchKernel (T M P : Type) where
  compute : T → T → M → P → TrainResult M

/-- A call of the method of the batch kernel, with its arguments. -/
inductive BatchCall (T M P : Type) where
  | compute (x y : T) (r : M) (par : P)
  deriving DecidableEq, Repr

/-- The fields of `BatchContainer` that its method uses: `_in`, `_res`, `_par`. -/
structure BatchContainer (T M P : Type) where
  _in : Input T
  _res : Result M
  _par : P
  deriving DecidableEq, Repr

/-- Method `BatchContainer::compute()`. -/
def BatchContainer.compute {T M P : Type} (kernel : BatchKernel T M P)
    (c : BatchContainer T M P) : Outcome (BatchContainer T M P) (BatchCall T M P) :=
  let input := c._in
  let result := c._res
  let x := input.data
  let y := input.dependentVariables
  let r := result.model
  let par := c._par
  let s := kernel.compute x y r par
  { state := { c with _res := { model := s.model } }
    status := s.status
    calls := [BatchCall.compute x y r par] }

/-! ## The kernel bound to a container

The member `_kernel` of a container, the macro `__DAAL_INITIALIZE_KERNELS` of the
constructors and the dispatch behind `__DAAL_INSTANTIATE_DISPATCH_CONTAINER` are declared in
headers that are not in the sources. -/

/-- Modelled from the spec: a container object with its member `_kernel`, "the cached
binding" that the constructor sets and that "never changes after first dispatch"; `fields`
are the other members. -/
structure BoundContainer (K C : Type) where
  _kernel : K
  fields : C

/-- Modelled from the spec: a method of a bound container. The call macro of the method body
calls the method of the kernel in `_kernel` ("no per-call re-dispatch") and assigns no
member. -/
def BoundContainer.call {K C L : Type} (method : K → C → Outcome C L)
    (b : BoundContainer K C) : Outcome (BoundContainer K C) L :=
  let o := method b._kernel b.fields
  { state := { _kernel := b._kernel, fields := o.state }
    status := o.status
    calls := o.calls }

/-- The methods of the online and of the distributed container. -/
inductive TrainMethod where
  | compute
  | finalizeCompute
  deriving DecidableEq, Repr

/-- The method of the online container named by `m`. -/
def OnlineContainer.invoke {T M P : Type} :
    TrainMethod → OnlineKernel T M P → OnlineContainer T M P →
      Outcome (OnlineContainer T M P) (OnlineCall T M P)
  | TrainMethod.compute => OnlineContainer.compute
  | TrainMethod.finalizeCompute => OnlineContainer.finalizeCompute

/-- The method of the distributed container named by `m`. -/
def DistributedContainer.invoke {M P : Type} :
    TrainMethod → DistributedKernel M P → DistributedContainer M P →
      Outcome (DistributedContainer M P) (DistributedCall M P)
  | TrainMethod.compute => DistributedContainer.compute
  | TrainMethod.finalizeCompute => DistributedContainer.finalizeCompute

/-- The only method of the batch container. -/
def BatchContainer.invoke {T M P : Type} :
    Unit → BatchKernel T M P → BatchContainer T M P →
      Outcome (BatchContainer T M P) (BatchCall T M P)
  | _ => BatchContainer.compute

/-- What happens to a container between construction and destruction: a method is called,
or the caller binds other arguments (input, result, partial result, parameter). -/
inductive Step (Me C : Type) where
  | call (m : Me)
  | rebind (f : C → C)

/-- The bound container after one step. -/
def BoundContainer.step {Me K C L : Type} (invoke : Me → K → C → Outcome C L)
    (b : BoundContainer K C) : Step Me C → BoundContainer K C
  | Step.call m => (b.call (invoke m)).state
  | Step.rebind f => { _kernel := b._kernel, fields := f b.fields }

/-- The bound container after the steps, in order. -/
def BoundContainer.run {Me K C L : Type} (invoke : Me → K → C → Outcome C L)
    (b : BoundContainer K C) (steps : List (Step Me C)) : BoundContainer K C :=
  steps.foldl (BoundContainer.step invoke) b

/-- The kernel that each method call among the steps used, in order. -/
def BoundContainer.kernelsUsed {Me K C L : Type} (invoke : Me → K → C → Outcome C L) :
    BoundContainer K C → List (Step Me C) → List K
  | _, [] => []
  | b, Step.call m :: rest =>
    b._kernel :: BoundContainer.kernelsUsed invoke (b.step invoke (Step.call m)) rest
  | b, Step.rebind f :: rest =>
    BoundContainer.kernelsUsed invoke (b.step invoke (Step.rebind f)) rest

/-- Modelled from the spec: the Kernel Table, "a registry mapping (numeric precision,
algorithm method, CPU feature level) to a concrete kernel instance". Feature levels are
numbered upward from the baseline `0`; `none` means that no implementation exists. -/
abbrev KernelTable (Pr Me K : Type) := Pr → Me → Nat → Option K

/-- Modelled from the spec: the Kernel Dispatcher "walks the running CPU's detected feature
level downward (best-available-first)" over the implementations `impl` of one precision and
method and takes the first one it meets. -/
def Dispatcher.walkDown {K : Type} (impl : Nat → Option K) : Nat → Option K
  | 0 => impl 0
  | level + 1 =>
    match impl (level + 1) with
    | some kernel => some kernel
    | none => Dispatcher.walkDown impl level

/-- The error kinds of construction. -/
inductive ConstructionError where
  | KernelNotAvailable
  deriving DecidableEq, Repr

/-- Modelled from the spec: construction of a container for a precision and a method on a
CPU of the detected feature level: the dispatcher selects a kernel from the table and the
container binds it; "if none exists for the requested (Precision, Method) at any level,
construction fails with a `KernelNotAvailable` error". -/
def BoundContainer.construct {Pr Me K C : Type} (table : KernelTable Pr Me K)
    (precision : Pr) (method : Me) (detected : Nat) (fields : C) :
    Except ConstructionError (BoundContainer K C) :=
  match Dispatcher.walkDown (table precision method) detected with
  | some kernel => Except.ok { _kernel := kernel, fields := fields }
  | none => Except.error ConstructionError.KernelNotAvailable

/-! ## Parameters of the three-dimensional maximum pooling layer -/

/-- The arguments that the constructor of `pooling3d::Parameter` receives, named as the
parameters of the constructor of `maximum_pooling3d::Parameter` that are passed in those
positions. The class itself (`pooling3d_layer_types.h`) is not in the sources. -/
structure pooling3d.Parameter where
  firstIndex : Nat
  secondIndex : Nat
  thirdIndex : Nat
  firstKernelSize : Nat
  secondKernelSize : Nat
  thirdKernelSize : Nat
  firstStride : Nat
  secondStride : Nat
  thirdStride : Nat
  firstPadding : Nat
  secondPadding : Nat
  thirdPadding : Nat
  deriving DecidableEq, Repr

/-- The default arguments of the constructor of `maximum_pooling3d::Parameter`, from
`firstKernelSize = 2` to `thirdPadding = 0`. -/
def maximumPooling3dDefaults : List Nat := [2, 2, 2, 2, 2, 2, 0, 0, 0]

/-- The value of the optional parameter at position `i` (from `0`, `firstKernelSize`) when
the call gives the optional arguments `optional`: the argument given, or else the default. -/
def optionalArgument (optional : List Nat) (i : Nat) : Nat :=
  optional.getD i (maximumPooling3dDefaults.getD i 0)

/-- The constructor of `maximum_pooling3d::Parameter`, called with the three indices and with
the optional arguments `optional` (none to nine of them): the base constructed by
`layers::pooling3d::Parameter(firstIndex, secondIndex, thirdIndex, firstKernelSize,
secondKernelSize, thirdKernelSize, firstStride, secondStride, thirdStride, firstPadding,
secondPadding, thirdPadding)`. -/
def maximum_pooling3d.Parameter (firstIndex secondIndex thirdIndex : Nat)
    (optional : List Nat) : pooling3d.Parameter :=
  let firstKernelSize := optionalArgument optional 0
  let secondKernelSize := optionalArgument optional 1
  let thirdKernelSize := optionalArgument optional 2
  let firstStride := optionalArgument optional 3
  let secondStride := optionalArgument optional 4
  let thirdStride := optionalArgument optional 5
  let firstPadding := optionalArgument optional 6
  let secondPadding := optionalArgument optional 7
  let thirdPadding := optionalArgument optional 8
  { firstIndex := firstIndex, secondIndex := secondIndex, thirdIndex := thirdIndex
    firstKernelSize := firstKernelSize, secondKernelSize := secondKernelSize
    thirdKernelSize := thirdKernelSize
    firstStride := firstStride, secondStride := secondStride, thirdStride := thirdStride
    firstPadding := firstPadding, secondPadding := secondPadding
    thirdPadding := thirdPadding }

/-! ## Adding a collection to an error collection (`error_handling.h`) -/

/-- Modelled from the spec: `KernelErrorCollection::add(const
services::SharedPtr<KernelErrorCollection> &e)`, declared in the header ("adds error kernel
collection") and defined elsewhere: the errors of `e` become the last elements, in their
order. -/
def KernelErrorCollection.addCollection (k e : KernelErrorCollection) : KernelErrorCollection :=
  { items := k.items ++ e.items }

/-- Method `ErrorCollection::add(const KernelErrorCollectionPtr &e)`. -/
def ErrorCollection.addKernelErrorCollection (env : Env) (h : Heap) (self : ErrorCollection)
    (e : KernelErrorCollectionPtr) : AddOutcome :=
  if !(h.cell e).isEmpty then
    let h1 := h.store self._errors ((h.cell self._errors).addCollection (h.cell e))
    self.throwIfCan env h1
  else
    { heap := h, thrown := none }

/-- Method `ErrorCollection::add(const ErrorCollection &e)`. -/
def ErrorCollection.addErrorCollection (env : Env) (h : Heap) (self : ErrorCollection)
    (e : ErrorCollection) : AddOutcome :=
  if !e.isEmpty h then
    let h1 := h.store self._errors ((h.cell self._errors).addCollection (h.cell e.getErrors))
    self.throwIfCan env h1
  else
    { heap := h, thrown := none }

/-! ## The JNI functions of `StringDataSource` (`string_data_source.cpp`)

The class `StringDataSource<CSVFeatureManager>` (`string_data_source.h`), the allocator
`daal_malloc` and the macro `DAAL_CHECK_THROW` are not in the sources. The class is a
parameter: a type `DS` of states of a data source object with the four members the functions
use. What the allocator does at the one call of a function is a parameter. Every function
returns the list of the calls it makes to them and to the JNI environment, in order. -/

/-- A byte (`char`, `byte`), by its value; `'\0'` is `0`. -/
abbrev Byte := Nat

/-- Conversion of a `jlong` to `size_t`: the value modulo `2 ^ 64`. -/
def toSizeT (v : Int) : Nat := (v % 2 ^ 64).toNat

/-- The block that `daal_malloc(size)` returns. `block` is what the allocator does at this
call: `none` when it returns a null pointer, and otherwise the contents that the new block
of `size` bytes happens to have, byte by byte. -/
def daal_malloc (block : Option (Nat → Byte)) (size : Nat) : Option (List Byte) :=
  block.map (fun contents => (List.range size).map contents)

/-- The argument `n + 1` of `daal_malloc( n + 1 )` as a `size_t`, for the `jlong` `n`: `none`
when the addition overflows the `jlong`. -/
def allocationSize (n : Int) : Option Nat :=
  if n + 1 < 2 ^ 63 then some (toSizeT (n + 1)) else none

/-- The status `services::Status(id)`, which carries the one error `id`. -/
def Status.ofError (id : ErrorID) : Status := { errors := [id] }

/-- The members of `StringDataSource<CSVFeatureManager>` that the JNI functions use: the
constructor from a buffer (with `doAllocateNumericTable` and `doDictionaryFromContext`),
`status()`, `resetData()` and `setData(buffer)`. -/
structure StringDataSourceClass (DS : Type) where
  construct : List Byte → DS
  status : DS → Status
  resetData : DS → DS
  setData : DS → List Byte → DS

/-- A call that a JNI function makes: to the allocator, to the JNI environment, to the macro
`DAAL_CHECK_THROW` with the status it is given, or to the data source. -/
inductive JniEvent where
  | daal_malloc (size : Nat)
  | ReleaseStringUTFChars
  | DAAL_CHECK_THROW (s : Status)
  | newStringDataSource (inner_data : List Byte)
  | deleteDataSource
  | resetData
  | setData (inner_data : List Byte)
  deriving DecidableEq, Repr

/-- The loop `for (size_t i = 0; i < n; i++) inner_data[i] = data[i];` from index `i` on,
with `count` iterations left. The result is `none` when an iteration reads outside `data`
or writes outside `inner_data`. -/
def copyLoop (data : List Byte) : Nat → Nat → List Byte → Option (List Byte)
  | 0, _, inner_data => some inner_data
  | count + 1, i, inner_data =>
    match data[i]? with
    | none => none
    | some b =>
      if i < inner_data.length then copyLoop data count (i + 1) (inner_data.set i b) else none

/-- The assignment `inner_data[n] = '\0';` for the `jlong` `n`; `none` when the index is
outside `inner_data`. -/
def writeTerminator (n : Int) (inner_data : List Byte) : Option (List Byte) :=
  if 0 ≤ n ∧ n.toNat < inner_data.length then some (inner_data.set n.toNat 0) else none

/-- The buffer after the loop and the assignment of the terminator. In the loop condition
`i < n` the `jlong` `n` is converted to `size_t`. -/
def fillBuffer (data : List Byte) (n : Int) (inner_data : List Byte) : Option (List Byte) :=
  match copyLoop data (toSizeT n) 0 inner_data with
  | none => none
  | some copied => writeTerminator n copied

/-- What `cInit` returns: the data source behind the returned handle, `none` for the handle
`0`, and the calls made. -/
structure CInitOutcome (DS : Type) where
  handle : Option DS
  events : List JniEvent

/-- What `cSetData` leaves: the data source at `ptr` afterwards, and the calls made. -/
structure CSetDataOutcome (DS : Type) where
  ds : DS
  events : List JniEvent

/-- Function `Java_com_intel_daal_data_1management_data_1source_StringDataSource_cInit`.
`data` are the bytes at the pointer that `GetStringUTFChars(jData, NULL)` returns. The result
is `none` when `n + 1` overflows or the function reads outside `data` or writes outside the
allocated block. -/
def Java_com_intel_daal_data_1management_data_1source_StringDataSource_cInit {DS : Type}
    (cls : StringDataSourceClass DS) (ErrorMemoryAllocationFailed : ErrorID)
    (block : Option (Nat → Byte)) (data : List Byte) (n : Int) : Option (CInitOutcome DS) :=
  match allocationSize n with
  | none => none
  | some size =>
    match daal_malloc block size with
    | none =>
      some
        { handle := none
          events :=
            [JniEvent.daal_malloc size, JniEvent.ReleaseStringUTFChars,
              JniEvent.DAAL_CHECK_THROW (Status.ofError ErrorMemoryAllocationFailed)] }
    | some allocated =>
      match fillBuffer data n allocated with
      | none => none
      | some inner_data =>
        let ds := cls.construct inner_data
        if !(cls.status ds).ok then
          let s := cls.status ds
          some
            { handle := none
              events :=
                [JniEvent.daal_malloc size, JniEvent.ReleaseStringUTFChars,
                  JniEvent.newStringDataSource inner_data, JniEvent.deleteDataSource,
                  JniEvent.DAAL_CHECK_THROW s] }
        else
          some
            { handle := some ds
              events :=
                [JniEvent.daal_malloc size, JniEvent.ReleaseStringUTFChars,
                  JniEvent.newStringDataSource inner_data] }

/-- Function `Java_com_intel_daal_data_1management_data_1source_StringDataSource_cSetData`,
on the data source `ds` at `ptr`. `data` are the bytes at the pointer that
`GetStringUTFChars(jData, NULL)` returns. The result is `none` when `n + 1` overflows or
the function reads outside `data` or writes outside the allocated block. -/
def Java_com_intel_daal_data_1management_data_1source_StringDataSource_cSetData {DS : Type}
    (cls : StringDataSourceClass DS) (ErrorMemoryAllocationFailed : ErrorID)
    (block : Option (Nat → Byte)) (ds : DS) (data : List Byte) (n : Int) :
    Option (CSetDataOutcome DS) :=
  match allocationSize n with
  | none => none
  | some size =>
    match daal_malloc block size with
    | none =>
      some
        { ds := ds
          events :=
            [JniEvent.daal_malloc size, JniEvent.ReleaseStringUTFChars,
              JniEvent.DAAL_CHECK_THROW (Status.ofError ErrorMemoryAllocationFailed)] }
    | some allocated =>
      match fillBuffer data n allocated with
      | none => none
      | some inner_data =>
        let ds1 := cls.resetData ds
        let ds2 := cls.setData ds1 inner_data
        some
          { ds := ds2
            events :=
              [JniEvent.daal_malloc size, JniEvent.ReleaseStringUTFChars,
                JniEvent.resetData, JniEvent.setData inner_data,
                JniEvent.DAAL_CHECK_THROW (cls.status ds2)] }

/-! ## The empty partial result

The specification says that the partial result is "created empty at Container construction"
and "mutated in place by every compute() call", and that `finalizeCompute()` "called with an
empty/never-touched PartialResult yields `EmptyPartialResult` Status and no Model". The
containers of the source make no such check, they pass the partial model on to the kernel,
so the check is the kernel's, and the kernels are not in the sources. -/

/-- Modelled from the spec: an online kernel with the empty partial result and the check of
`finalizeCompute`. A model is `none` while it is empty and `some` of its contents once it
has been written. `compute` folds the batch into the contents so far, starting from `zero`
when the partial model is empty, and leaves a partial model that is not empty.
`finalizeCompute` on the empty partial model reports `EmptyPartialResult` and writes neither
model. What the kernel does with contents is the parameter `kernel`. -/
def OnlineKernel.withEmptyCheck {T M P : Type} (kernel : OnlineKernel T M P) (zero : M)
    (EmptyPartialResult : ErrorID) : OnlineKernel T (Option M) P where
  compute x y partialModel par :=
    { partialModel := some (kernel.compute x y (partialModel.getD zero) par).partialModel
      status := (kernel.compute x y (partialModel.getD zero) par).status }
  finalizeCompute partialModel model par :=
    match partialModel with
    | none =>
      { partialModel := none, model := model, status := Status.ofError EmptyPartialResult }
    | some contents =>
      { partialModel := some (kernel.finalizeCompute contents (model.getD zero) par).partialModel
        model := some (kernel.finalizeCompute contents (model.getD zero) par).model
        status := (kernel.finalizeCompute contents (model.getD zero) par).status }

/-- Modelled from the spec: an aggregation kernel with the empty partial result and the
check of `finalizeCompute`, as `OnlineKernel.withEmptyCheck`. `compute` merges the local
models, an empty one counting as `zero`, into the contents of the master's partial model so
far, and leaves a partial model that is not empty. -/
def DistributedKernel.withEmptyCheck {M P : Type} (kernel : DistributedKernel M P) (zero : M)
    (EmptyPartialResult : ErrorID) : DistributedKernel (Option M) P where
  compute n localModels partialModel par :=
    { partialModel :=
        some (kernel.compute n (localModels.map (fun m => m.getD zero))
          (partialModel.getD zero) par).partialModel
      status :=
        (kernel.compute n (localModels.map (fun m => m.getD zero))
          (partialModel.getD zero) par).status }
  finalizeCompute partialModel model par :=
    match partialModel with
    | none =>
      { partialModel := none, model := model, status := Status.ofError EmptyPartialResult }
    | some contents =>
      { partialModel := some (kernel.finalizeCompute contents (model.getD zero) par).partialModel
        model := some (kernel.finalizeCompute contents (model.getD zero) par).model
        status := (kernel.finalizeCompute contents (model.getD zero) par).status }

/-! ## Concrete kernels and containers for the examples -/

/-- An aggregation kernel within the kernel interface: `compute` stores the sum of the
local models in the master's partial model and reports success; `finalizeCompute` copies
the partial model to the model and reports success. -/
def sumKernel : DistributedKernel Int Unit where
  compute _ localModels _ _ := { partialModel := localModels.sum, status := Status.success }
  finalizeCompute partialModel _ _ :=
    { partialModel := partialModel, model := partialModel, status := Status.success }

/-- A distributed container whose collection of partial models is empty, with partial
model `5` and result model `7`. -/
def emptyRound : DistributedContainer Int Unit :=
  { _in := { partialModels := [] }, _pres := { partialModel := 5 }, _res := { model := 7 }
    _par := () }

/-- A distributed container with three partial models gathered. -/
def threeWorkers : DistributedContainer Int Unit :=
  { _in := { partialModels := [10, 20, 30] }, _pres := { partialModel := 0 }
    _res := { model := 0 }, _par := () }

/-- The online kernel of the specification over the integers: the statistic of a row is the
product of the data value and the dependent value, and the model is the partial model. -/
def productKernel : OnlineKernel (List Int) Int Unit :=
  runningSumOnlineKernel (fun x y => x * y) (fun partialModel _ => (partialModel, Status.success))

/-- The aggregation kernel of the specification over the integers; the model is the
partial model. -/
def mergeKernel : DistributedKernel Int Unit :=
  runningSumDistributedKernel (fun partialModel _ => (partialModel, Status.success))

/-- An online container on which `compute()` has not been called: no rows bound, partial
model `0`, result model `7`. -/
def freshOnline : OnlineContainer (List Int) Int Unit :=
  { _in := { data := [], dependentVariables := [] }, _pres := { partialModel := 0 }
    _res := { model := 7 }, _par := () }

/-- A distributed container on which `compute()` has not been called: nothing gathered,
partial model `0`, result model `7`. -/
def freshDistributed : DistributedContainer Int Unit :=
  { _in := { partialModels := [] }, _pres := { partialModel := 0 }, _res := { model := 7 }
    _par := () }

/-- A first batch of two rows. -/
def batchOne : Input (List Int) := { data := [1, 2], dependentVariables := [3, 4] }

/-- A second batch of one row. -/
def batchTwo : Input (List Int) := { data := [5], dependentVariables := [6] }

/-- A build with exceptions compiled in (`DAAL_NOTHROW_EXCEPTIONS` not defined); the
description of a collection is the number of its errors. -/
def throwingEnv : Env :=
  { DAAL_NOTHROW_EXCEPTIONS := false, getDescription := fun k => toString k.size }

/-- Two error collections of one process, both default-constructed, after
`setCanThrow(false)` on the first: the heap, the first and the second collection. -/
def twoCollections : Heap × ErrorCollection × ErrorCollection :=
  let first := ErrorCollection.construct Heap.empty
  let second := ErrorCollection.construct first.1
  (second.1, (first.2.setCanThrow false).2, second.2)

/-- A kernel table for one precision and one method in which the baseline level `0` and the
level `2` have an implementation, named by a number, and no other level has one. -/
def twoLevelTable : KernelTable Unit Unit Nat :=
  fun _ _ level => if level = 0 then some 100 else if level = 2 then some 102 else none

/-- A data source class whose state is the buffer it holds: the constructor and `setData`
keep the buffer given, `resetData` drops it, and the status is always ok. -/
def bufferSource : StringDataSourceClass (List Byte) :=
  { construct := fun inner_data => inner_data
    status := fun _ => Status.success
    resetData := fun _ => []
    setData := fun _ inner_data => inner_data }

/-- The bytes of the string `hi!` with its terminator. -/
def hiBytes : List Byte := [104, 105, 33, 0]

/-- An error collection with the one error `3`, at address `0`, and an empty one at address
`1`: the heap and the two collections. -/
def fullAndEmpty : Heap × ErrorCollection × ErrorCollection :=
  let first := ErrorCollection.construct Heap.empty
  let second := ErrorCollection.construct first.1
  ((first.2.add throwingEnv second.1 3).heap, first.2, second.2)

theorem localModelsOf_eq {M : Type} (collection : List M) :
    localModelsOf collection = collection := by
  unfold localModelsOf
  exact List.ofFn_get collection

theorem OnlineContainer.computeAll_cons {T M P : Type} (kernel : OnlineKernel T M P)
    (c : OnlineContainer T M P) (b : Input T) (bs : List (Input T)) :
    OnlineContainer.computeAll kernel c (b :: bs) =
      OnlineContainer.computeAll kernel (OnlineContainer.computeOn kernel c b).state bs := rfl

theorem OnlineContainer.computeOn_par {T M P : Type} (kernel : OnlineKernel T M P)
    (c : OnlineContainer T M P) (b : Input T) :
    (OnlineContainer.computeOn kernel c b).state._par = c._par := rfl

theorem OnlineContainer.computeOn_partialModel {T M P : Type} (kernel : OnlineKernel T M P)
    (c : OnlineContainer T M P) (b : Input T) :
    (OnlineContainer.computeOn kernel c b).state._pres.partialModel =
      (kernel.compute b.data b.dependentVariables c._pres.partialModel c._par).partialModel := rfl

theorem OnlineContainer.computeAll_par {T M P : Type} (kernel : OnlineKernel T M P)
    (bs : List (Input T)) (c : OnlineContainer T M P) :
    (OnlineContainer.computeAll kernel c bs)._par = c._par := by
  induction bs generalizing c with
  | nil => rfl
  | cons b bs ih =>
    rw [OnlineContainer.computeAll_cons, ih, OnlineContainer.computeOn_par]

theorem OnlineContainer.computeAll_res {T M P : Type} (kernel : OnlineKernel T M P)
    (bs : List (Input T)) (c : OnlineContainer T M P) :
    (OnlineContainer.computeAll kernel c bs)._res = c._res := by
  induction bs generalizing c with
  | nil => rfl
  | cons b bs ih =>
    rw [OnlineContainer.computeAll_cons, ih]
    rfl

/-- The partial model after `compute()` on each batch in turn is the left fold of the
kernel's `compute` over the batches, from the partial model at the start. -/
theorem OnlineContainer.computeAll_partialModel {T M P : Type} (kernel : OnlineKernel T M P)
    (bs : List (Input T)) (c : OnlineContainer T M P) :
    (OnlineContainer.computeAll kernel c bs)._pres.partialModel =
      bs.foldl
        (fun acc b => (kernel.compute b.data b.dependentVariables acc c._par).partialModel)
        c._pres.partialModel := by
  induction bs generalizing c with
  | nil => rfl
  | cons b bs ih =>
    rw [OnlineContainer.computeAll_cons, ih, OnlineContainer.computeOn_par,
      OnlineContainer.computeOn_partialModel]
    rfl

theorem OnlineContainer.callsOfAll_length {T M P : Type} (kernel : OnlineKernel T M P)
    (bs : List (Input T)) (c : OnlineContainer T M P) :
    (OnlineContainer.callsOfAll kernel c bs).length = bs.length := by
  induction bs generalizing c with
  | nil => rfl
  | cons b bs ih =>
    simp [OnlineContainer.callsOfAll, ih, OnlineContainer.computeOn, OnlineContainer.compute]

theorem zipWith_sum_append {R M : Type} [AddCommMonoid M] (stat : R → R → M)
    (x1 x2 y1 y2 : List R) (h : x1.length = y1.length) :
    (List.zipWith stat (x1 ++ x2) (y1 ++ y2)).sum =
      (List.zipWith stat x1 y1).sum + (List.zipWith stat x2 y2).sum := by
  rw [List.zipWith_append stat x1 x2 y1 y2 h, List.sum_append]

theorem foldl_add_eq_add_sum {M : Type} [AddCommMonoid M] (l : List M) (a : M) :
    l.foldl (fun acc m => acc + m) a = a + l.sum := by
  induction l generalizing a with
  | nil => simp
  | cons m l ih => simp [ih, add_assoc]

/-! ## The distributed container: `compute()` -/

/-- C1: after `DistributedContainer<step2Master>::compute()` has returned, the input
collection of partial models is empty (size 0), for every collection and every result and
status of the kernel; the collection is handed to the kernel in one single call. -/
theorem distributed_compute_clears_collection {M P : Type} (kernel : DistributedKernel M P)
    (c : DistributedContainer M P) :
    (DistributedContainer.compute kernel c).state._in.partialModels.length = 0 ∧
      (DistributedContainer.compute kernel c).state._in.partialModels = [] ∧
      (DistributedContainer.compute kernel c).calls.length = 1 :=
  ⟨rfl, rfl, rfl⟩

/-- C2, as stated, fails: on a container whose collection is empty, `compute()` with the
kernel `sumKernel` does invoke the kernel (with `n = 0` and no local model), returns a status
without any error, and the master's partial model changes from `5` to `0`. -/
theorem empty_collection_counterexample :
    emptyRound._in.partialModels.length = 0 ∧
      (DistributedContainer.compute sumKernel emptyRound).calls =
        [DistributedCall.compute 0 [] 5 ()] ∧
      (DistributedContainer.compute sumKernel emptyRound).status.errors = [] ∧
      emptyRound._pres.partialModel = 5 ∧
      (DistributedContainer.compute sumKernel emptyRound).state._pres.partialModel = 0 := by
  refine ⟨rfl, ?_, rfl, rfl, rfl⟩
  simp [DistributedContainer.compute, localModelsOf, emptyRound]

/-- C2, amended: when the collection is empty, `compute()` makes no check of its own. It
invokes the kernel once, with `n = 0` and an empty list of local models, returns the status
of that call, and the master's partial model is the one the kernel left. -/
theorem empty_collection_goes_to_kernel {M P : Type} (kernel : DistributedKernel M P)
    (c : DistributedContainer M P) (h : c._in.partialModels = []) :
    (DistributedContainer.compute kernel c).calls =
        [DistributedCall.compute 0 [] c._pres.partialModel c._par] ∧
      (DistributedContainer.compute kernel c).status =
        (kernel.compute 0 [] c._pres.partialModel c._par).status ∧
      (DistributedContainer.compute kernel c).state._pres.partialModel =
        (kernel.compute 0 [] c._pres.partialModel c._par).partialModel := by
  simp [DistributedContainer.compute, localModelsOf_eq, h]

/-- The amended statement on the empty collection, at the container `freshDistributed`. -/
theorem empty_collection_goes_to_kernel_witness :
    freshDistributed._in.partialModels = [] ∧
      (DistributedContainer.compute mergeKernel freshDistributed).calls =
        [DistributedCall.compute 0 [] freshDistributed._pres.partialModel freshDistributed._par] ∧
      (DistributedContainer.compute mergeKernel freshDistributed).status =
        (mergeKernel.compute 0 [] freshDistributed._pres.partialModel
          freshDistributed._par).status ∧
      (DistributedContainer.compute mergeKernel freshDistributed).state._pres.partialModel =
        (mergeKernel.compute 0 [] freshDistributed._pres.partialModel
          freshDistributed._par).partialModel :=
  ⟨rfl, empty_collection_goes_to_kernel mergeKernel freshDistributed rfl⟩

/-- C5: the status that `DistributedContainer<step2Master>::compute()` returns is the status
of its single kernel call: a failure of the kernel is returned as it is, a success of the
kernel gives an empty status, and there is one kernel call whatever the status, so no
retry. -/
theorem distributed_compute_status {M P : Type} (kernel : DistributedKernel M P)
    (c : DistributedContainer M P) :
    (DistributedContainer.compute kernel c).status =
        (kernel.compute c._in.partialModels.length (localModelsOf c._in.partialModels)
          c._pres.partialModel c._par).status ∧
      (DistributedContainer.compute kernel c).status.ok =
        (kernel.compute c._in.partialModels.length (localModelsOf c._in.partialModels)
          c._pres.partialModel c._par).status.ok ∧
      (DistributedContainer.compute kernel c).calls.length = 1 :=
  ⟨rfl, rfl, rfl⟩

/-! ## `finalizeCompute()` on a container that has not computed -/

/-- With the check, `finalizeCompute()` of the online container still leaves the partial
result as it was whenever the kernel underneath leaves the partial model as it was, as the
running-sum kernels do: the check takes nothing from what holds without it. -/
theorem OnlineContainer.finalizeCompute_withEmptyCheck_pres {T M P : Type}
    (kernel : OnlineKernel T M P) (zero : M) (EmptyPartialResult : ErrorID)
    (c : OnlineContainer T (Option M) P)
    (hk : ∀ (contents model : M) (par : P),
      (kernel.finalizeCompute contents model par).partialModel = contents) :
    (OnlineContainer.finalizeCompute (kernel.withEmptyCheck zero EmptyPartialResult)
      c).state._pres = c._pres := by
  cases c with
  | mk cin cpres cres cpar =>
    cases cpres with
    | mk pm =>
      cases pm with
      | none => rfl
      | some contents =>
        simp only [OnlineContainer.finalizeCompute, OnlineKernel.withEmptyCheck, hk]

/-- C8: each `OnlineContainer::compute()` invokes the kernel once, with the data and the
dependent variables of the current input and with the partial model of the container's
partial result, and stores the partial model the kernel leaves. So after `compute()` on
each of the batches `bs`, in order, the partial model is the left fold of the kernel's
`compute` over `bs` from the partial model at the start, with one kernel call per batch:
the accumulator is never reset. -/
theorem online_compute_folds {T M P : Type} (kernel : OnlineKernel T M P)
    (c : OnlineContainer T M P) (bs : List (Input T)) :
    (OnlineContainer.compute kernel c).calls =
        [OnlineCall.compute c._in.data c._in.dependentVariables c._pres.partialModel c._par] ∧
      (OnlineContainer.compute kernel c).state._pres.partialModel =
        (kernel.compute c._in.data c._in.dependentVariables c._pres.partialModel
          c._par).partialModel ∧
      (OnlineContainer.computeAll kernel c bs)._pres.partialModel =
        bs.foldl
          (fun acc b => (kernel.compute b.data b.dependentVariables acc c._par).partialModel)
          c._pres.partialModel ∧
      (OnlineContainer.callsOfAll kernel c bs).length = bs.length :=
  ⟨rfl, rfl, OnlineContainer.computeAll_partialModel kernel bs c,
    OnlineContainer.callsOfAll_length kernel bs c⟩

/-! ## Splitting and permuting in exact arithmetic

The two lemmas of this section are about the running-sum kernels over a commutative monoid,
that is, about exact sums. They say nothing about the kernels in single or double precision,
where every sum is rounded and the order of the additions shows in the result. -/

/-- With the running-sum online kernel over a commutative monoid, `compute()` on a batch
`b1`, `compute()` on a batch `b2` and then `finalizeCompute()` give the same model as
`compute()` on the concatenation of `b1` and `b2` and then `finalizeCompute()`, when `b1`
has as many rows of dependent variables as rows of data. Without that condition the rows of
the concatenation are paired differently and the models can differ. -/
theorem online_split_eq_concat {R M P : Type} [AddCommMonoid M] (stat : R → R → M)
    (solve : M → P → M × Status) (c : OnlineContainer (List R) M P) (b1 b2 : Input (List R))
    (h : b1.data.length = b1.dependentVariables.length) :
    OnlineContainer.train (runningSumOnlineKernel stat solve) c [b1, b2] =
      OnlineContainer.train (runningSumOnlineKernel stat solve) c [b1.concat b2] := by
  have key : (OnlineContainer.computeAll (runningSumOnlineKernel stat solve) c
        [b1, b2])._pres.partialModel =
      (OnlineContainer.computeAll (runningSumOnlineKernel stat solve) c
        [b1.concat b2])._pres.partialModel := by
    rw [OnlineContainer.computeAll_partialModel, OnlineContainer.computeAll_partialModel]
    simp only [List.foldl_cons, List.foldl_nil, runningSumOnlineKernel, Input.concat]
    rw [zipWith_sum_append stat _ _ _ _ h, add_assoc]
  have par : (OnlineContainer.computeAll (runningSumOnlineKernel stat solve) c [b1, b2])._par =
      (OnlineContainer.computeAll (runningSumOnlineKernel stat solve) c [b1.concat b2])._par := by
    rw [OnlineContainer.computeAll_par, OnlineContainer.computeAll_par]
  simp only [OnlineContainer.train, OnlineContainer.finalizeCompute, runningSumOnlineKernel]
  simp only [runningSumOnlineKernel] at key par
  rw [key, par]

/-- Splitting against concatenating, at a batch of two rows and a batch of one row: the
model is `1 * 3 + 2 * 4 + 5 * 6 = 41` either way. -/
theorem online_split_eq_concat_witness :
    batchOne.data.length = batchOne.dependentVariables.length ∧
      OnlineContainer.train productKernel freshOnline [batchOne, batchTwo] = 41 ∧
      OnlineContainer.train productKernel freshOnline [batchOne.concat batchTwo] = 41 ∧
      OnlineContainer.train
          (runningSumOnlineKernel (fun x y => x * y)
            (fun partialModel _ => (partialModel, Status.success))) freshOnline
          [batchOne, batchTwo] =
        OnlineContainer.train
          (runningSumOnlineKernel (fun x y => x * y)
            (fun partialModel _ => (partialModel, Status.success))) freshOnline
          [batchOne.concat batchTwo] :=
  ⟨rfl, by decide, by decide, online_split_eq_concat _ _ freshOnline batchOne batchTwo rfl⟩

/-- With the running-sum aggregation kernel over a commutative monoid, `compute()` and then
`finalizeCompute()` give the same model for a collection of partial models and for every
permutation of it. -/
theorem distributed_permutation {M P : Type} [AddCommMonoid M] (solve : M → P → M × Status)
    (c : DistributedContainer M P) (collection permuted : List M)
    (h : permuted.Perm collection) :
    DistributedContainer.train (runningSumDistributedKernel solve) c permuted =
      DistributedContainer.train (runningSumDistributedKernel solve) c collection := by
  simp only [DistributedContainer.train, DistributedContainer.finalizeCompute,
    DistributedContainer.compute, runningSumDistributedKernel, localModelsOf_eq,
    foldl_add_eq_add_sum, h.sum_eq]

/-- Permuting the collection, at three partial models `10`, `20`, `30`: the model is `60`
in either order. -/
theorem distributed_permutation_witness :
    [30, 10, 20].Perm threeWorkers._in.partialModels ∧
      DistributedContainer.train mergeKernel threeWorkers [10, 20, 30] = 60 ∧
      DistributedContainer.train
          (runningSumDistributedKernel (fun partialModel _ => (partialModel, Status.success)))
          threeWorkers [30, 10, 20] =
        DistributedContainer.train
          (runningSumDistributedKernel (fun partialModel _ => (partialModel, Status.success)))
          threeWorkers threeWorkers._in.partialModels :=
  ⟨by decide, by decide, distributed_permutation _ threeWorkers _ _ (by decide)⟩

/-! ## Error collections -/

theorem Heap.store_cell_same (h : Heap) (p : KernelErrorCollectionPtr)
    (k : KernelErrorCollection) : (h.store p k).cell p = k := by
  simp [Heap.store]

theorem ErrorCollection.throwIfCan_heap (env : Env) (h : Heap) (self : ErrorCollection) :
    (self.throwIfCan env h).heap = h := by
  unfold ErrorCollection.throwIfCan
  split
  · rfl
  · split <;> rfl

theorem ErrorCollection.throwIfCan_raised (env : Env) (h : Heap) (self : ErrorCollection) :
    (self.throwIfCan env h).raised = self.throwMode env := by
  unfold ErrorCollection.throwIfCan ErrorCollection.throwMode ErrorCollection.canThrow
    AddOutcome.raised
  cases env.DAAL_NOTHROW_EXCEPTIONS <;> cases self._canThrow <;> rfl

theorem ErrorCollection.size_after_addError (env : Env) (h : Heap) (self : ErrorCollection)
    (e : Error) : self.size (self.addError env h e).heap = self.size h + 1 := by
  simp [ErrorCollection.addError, ErrorCollection.throwIfCan_heap, ErrorCollection.size,
    Heap.store_cell_same, KernelErrorCollection.addError, KernelErrorCollection.size]

theorem ErrorCollection.size_after_add (env : Env) (h : Heap) (self : ErrorCollection)
    (id : ErrorID) : self.size (self.add env h id).heap = self.size h + 1 := by
  simp [ErrorCollection.add, ErrorCollection.throwIfCan_heap, ErrorCollection.size,
    Heap.store_cell_same, KernelErrorCollection.add, KernelErrorCollection.addError,
    KernelErrorCollection.size]

theorem ErrorCollection.isEmpty_eq (h : Heap) (self : ErrorCollection) :
    self.isEmpty h = (self.size h == 0) := rfl

/-- C6: `ErrorCollection::add(id)` and `add(ErrorPtr)` raise an exception exactly when the
collection is in throw mode, that is, when exceptions are compiled in and `canThrow()` is
true, which it is after default construction; otherwise the call returns normally. After the
call the size of the collection is one more than before and the collection is not empty. -/
theorem add_raises_iff_throw_mode (env : Env) (h : Heap) (self : ErrorCollection)
    (id : ErrorID) (e : Error) :
    (self.add env h id).raised = self.throwMode env ∧
      (self.addError env h e).raised = self.throwMode env ∧
      self.throwMode env = (!env.DAAL_NOTHROW_EXCEPTIONS && self.canThrow) ∧
      (ErrorCollection.construct h).2.canThrow = true ∧
      self.size (self.add env h id).heap = self.size h + 1 ∧
      self.isEmpty (self.add env h id).heap = false ∧
      self.size (self.addError env h e).heap = self.size h + 1 ∧
      self.isEmpty (self.addError env h e).heap = false := by
  refine ⟨?_, ?_, rfl, rfl, ErrorCollection.size_after_add env h self id, ?_,
    ErrorCollection.size_after_addError env h self e, ?_⟩
  · exact ErrorCollection.throwIfCan_raised env _ self
  · exact ErrorCollection.throwIfCan_raised env _ self
  · rw [ErrorCollection.isEmpty_eq, ErrorCollection.size_after_add]
    rfl
  · rw [ErrorCollection.isEmpty_eq, ErrorCollection.size_after_addError]
    rfl

/-- C7, as stated, fails: of two default-constructed error collections of one process, the
first after `setCanThrow(false)`, adding the same error identifier returns normally on the
first and raises an exception on the second. -/
theorem process_wide_mode_counterexample :
    (twoCollections.2.1.add throwingEnv twoCollections.1 1).raised = false ∧
      (twoCollections.2.2.add throwingEnv twoCollections.1 1).raised = true :=
  ⟨rfl, rfl⟩

/-- C7, amended: the mode is held by each `ErrorCollection` object in its `_canThrow` flag,
which is true after default construction, copied by the copy constructor and set by
`setCanThrow` on that object; only the switch `DAAL_NOTHROW_EXCEPTIONS` holds for the whole
build. Adding the same error to two collections has the same throw or no-throw behaviour
exactly when `DAAL_NOTHROW_EXCEPTIONS` is defined or their `canThrow()` flags are equal. -/
theorem add_mode_is_per_object (env : Env) (h1 h2 : Heap) (a b : ErrorCollection)
    (id : ErrorID) (e : Error) (bOn : Bool) :
    ((a.add env h1 id).raised = (b.add env h2 id).raised ↔
        (env.DAAL_NOTHROW_EXCEPTIONS = true ∨ a.canThrow = b.canThrow)) ∧
      ((a.addError env h1 e).raised = (b.addError env h2 e).raised ↔
        (env.DAAL_NOTHROW_EXCEPTIONS = true ∨ a.canThrow = b.canThrow)) ∧
      (ErrorCollection.construct h1).2.canThrow = true ∧
      a.copyConstruct.canThrow = a.canThrow ∧
      (a.setCanThrow bOn).2.canThrow = bOn := by
  have ha : ∀ (c : ErrorCollection) (h : Heap), (c.add env h id).raised = c.throwMode env :=
    fun c h => ErrorCollection.throwIfCan_raised env _ c
  have he : ∀ (c : ErrorCollection) (h : Heap), (c.addError env h e).raised = c.throwMode env :=
    fun c h => ErrorCollection.throwIfCan_raised env _ c
  refine ⟨?_, ?_, rfl, rfl, rfl⟩
  · rw [ha, ha]
    unfold ErrorCollection.throwMode
    cases env.DAAL_NOTHROW_EXCEPTIONS <;> cases a.canThrow <;> cases b.canThrow <;> simp
  · rw [he, he]
    unfold ErrorCollection.throwMode
    cases env.DAAL_NOTHROW_EXCEPTIONS <;> cases a.canThrow <;> cases b.canThrow <;> simp

/-! ## `finalizeCompute()` and the partial result, `compute()` and the result -/

/-- C11: `finalizeCompute()` of the online and of the distributed container writes nothing to
the partial result itself: the partial model afterwards is the one the kernel's
`finalizeCompute` left. With the kernels as the specification describes them the partial
model after `finalizeCompute()` is the partial model before it, and `finalizeCompute()`
called twice in a row produces the same model and the same status. -/
theorem finalize_keeps_partial_model {T R M P : Type} [AddCommMonoid M]
    (online : OnlineKernel T M P) (distributed : DistributedKernel M P)
    (a : OnlineContainer T M P) (stat : R → R → M) (solve : M → P → M × Status)
    (c : OnlineContainer (List R) M P) (d : DistributedContainer M P) :
    (OnlineContainer.finalizeCompute online a).state._pres.partialModel =
        (online.finalizeCompute a._pres.partialModel a._res.model a._par).partialModel ∧
      (DistributedContainer.finalizeCompute distributed d).state._pres.partialModel =
        (distributed.finalizeCompute d._pres.partialModel d._res.model d._par).partialModel ∧
      (OnlineContainer.finalizeCompute (runningSumOnlineKernel stat solve) c).state._pres =
        c._pres ∧
      (OnlineContainer.finalizeCompute (runningSumOnlineKernel stat solve)
          (OnlineContainer.finalizeCompute (runningSumOnlineKernel stat solve) c).state).state._res =
        (OnlineContainer.finalizeCompute (runningSumOnlineKernel stat solve) c).state._res ∧
      (OnlineContainer.finalizeCompute (runningSumOnlineKernel stat solve)
          (OnlineContainer.finalizeCompute (runningSumOnlineKernel stat solve) c).state).status =
        (OnlineContainer.finalizeCompute (runningSumOnlineKernel stat solve) c).status ∧
      (DistributedContainer.finalizeCompute (runningSumDistributedKernel solve) d).state._pres =
        d._pres ∧
      (DistributedContainer.finalizeCompute (runningSumDistributedKernel solve)
          (DistributedContainer.finalizeCompute (runningSumDistributedKernel solve)
            d).state).state._res =
        (DistributedContainer.finalizeCompute (runningSumDistributedKernel solve) d).state._res ∧
      (DistributedContainer.finalizeCompute (runningSumDistributedKernel solve)
          (DistributedContainer.finalizeCompute (runningSumDistributedKernel solve)
            d).state).status =
        (DistributedContainer.finalizeCompute (runningSumDistributedKernel solve) d).status :=
  ⟨rfl, rfl, rfl, rfl, rfl, rfl, rfl, rfl⟩

/-- C12: `compute()` of the online and of the distributed container neither reads nor writes
the container's result. The result afterwards is the result before, also after `compute()`
on any number of batches, and the status, the kernel call and the partial result of
`compute()` are the same whatever result `r` the container holds. -/
theorem compute_leaves_result {T M P : Type} (online : OnlineKernel T M P)
    (distributed : DistributedKernel M P) (c : OnlineContainer T M P)
    (d : DistributedContainer M P) (r : Result M) (bs : List (Input T)) :
    ((OnlineContainer.compute online c).state._res = c._res ∧
      (OnlineContainer.computeAll online c bs)._res = c._res ∧
      (OnlineContainer.compute online { c with _res := r }).status =
        (OnlineContainer.compute online c).status ∧
      (OnlineContainer.compute online { c with _res := r }).calls =
        (OnlineContainer.compute online c).calls ∧
      (OnlineContainer.compute online { c with _res := r }).state._pres =
        (OnlineContainer.compute online c).state._pres) ∧
    ((DistributedContainer.compute distributed d).state._res = d._res ∧
      (DistributedContainer.compute distributed { d with _res := r }).status =
        (DistributedContainer.compute distributed d).status ∧
      (DistributedContainer.compute distributed { d with _res := r }).calls =
        (DistributedContainer.compute distributed d).calls ∧
      (DistributedContainer.compute distributed { d with _res := r }).state._pres =
        (DistributedContainer.compute distributed d).state._pres) :=
  ⟨⟨rfl, OnlineContainer.computeAll_res online bs c, rfl, rfl, rfl⟩, ⟨rfl, rfl, rfl, rfl⟩⟩

/-! ## The batch container -/

/-- A kernel whose `compute` does not read the model it writes gives, on a second
`compute()` of the batch container, the model and the status of the first. -/
theorem BatchContainer.compute_twice_of_fresh {T M P : Type} (kernel : BatchKernel T M P)
    (c : BatchContainer T M P)
    (h : ∀ (x y : T) (r1 r2 : M) (par : P), kernel.compute x y r1 par = kernel.compute x y r2 par) :
    (BatchContainer.compute kernel (BatchContainer.compute kernel c).state).state =
        (BatchContainer.compute kernel c).state ∧
      (BatchContainer.compute kernel (BatchContainer.compute kernel c).state).status =
        (BatchContainer.compute kernel c).status := by
  simp only [BatchContainer.compute]
  rw [h c._in.data c._in.dependentVariables _ c._res.model c._par]
  exact ⟨rfl, rfl⟩

/-- C13: `BatchContainer::compute()` invokes the kernel exactly once, with the data table of
the input as `x`, the table of dependent variables of the input as `y`, the model of the
result as the target model and the parameter of the container, and returns the status of
that call; the model of the result is the one the kernel left. -/
theorem batch_compute_kernel_call {T M P : Type} (kernel : BatchKernel T M P)
    (c : BatchContainer T M P) :
    (BatchContainer.compute kernel c).calls =
        [BatchCall.compute c._in.data c._in.dependentVariables c._res.model c._par] ∧
      (BatchContainer.compute kernel c).calls.length = 1 ∧
      (BatchContainer.compute kernel c).status =
        (kernel.compute c._in.data c._in.dependentVariables c._res.model c._par).status ∧
      (BatchContainer.compute kernel c).state._res.model =
        (kernel.compute c._in.data c._in.dependentVariables c._res.model c._par).model :=
  ⟨rfl, rfl, rfl, rfl⟩

/-- C14: a second `BatchContainer::compute()` on the same input, result and parameter is
forwarded to the kernel like the first. The first call changes no field of the container:
input and parameter are as before and the only difference is what the kernel wrote into the
model of the result. The second call invokes the kernel once with the same tables, the same
parameter and the same model object, which holds what the first call left, and returns the
status of that call. -/
theorem batch_compute_restart {T M P : Type} (kernel : BatchKernel T M P)
    (c : BatchContainer T M P) :
    (BatchContainer.compute kernel c).state._in = c._in ∧
      (BatchContainer.compute kernel c).state._par = c._par ∧
      (BatchContainer.compute kernel c).state =
        { c with _res := { model :=
          (kernel.compute c._in.data c._in.dependentVariables c._res.model c._par).model } } ∧
      (BatchContainer.compute kernel c).calls =
        [BatchCall.compute c._in.data c._in.dependentVariables c._res.model c._par] ∧
      (BatchContainer.compute kernel (BatchContainer.compute kernel c).state).calls =
        [BatchCall.compute c._in.data c._in.dependentVariables
          (BatchContainer.compute kernel c).state._res.model c._par] ∧
      (BatchContainer.compute kernel (BatchContainer.compute kernel c).state).status =
        (kernel.compute c._in.data c._in.dependentVariables
          (BatchContainer.compute kernel c).state._res.model c._par).status :=
  ⟨rfl, rfl, rfl, rfl, rfl, rfl⟩

/-! ## The kernel of a container -/

theorem Dispatcher.walkDown_of_highest {K : Type} (impl : Nat → Option K) (kernel : K)
    (level : Nat) (himpl : impl level = some kernel) (detected : Nat) (hle : level ≤ detected)
    (habove : ∀ j, level < j → j ≤ detected → impl j = none) :
    Dispatcher.walkDown impl detected = some kernel := by
  induction detected with
  | zero =>
    have h0 : level = 0 := Nat.le_zero.mp hle
    subst h0
    simpa [Dispatcher.walkDown] using himpl
  | succ d ih =>
    rcases Nat.lt_or_ge d level with hlt | hge
    · have heq : level = d + 1 := Nat.le_antisymm hle hlt
      subst heq
      simp [Dispatcher.walkDown, himpl]
    · have hnone : impl (d + 1) = none := habove (d + 1) (Nat.lt_succ_of_le hge) (Nat.le_refl _)
      simp only [Dispatcher.walkDown, hnone]
      exact ih hge (fun j hj hjd => habove j hj (Nat.le_succ_of_le hjd))

theorem Dispatcher.walkDown_eq_none {K : Type} (impl : Nat → Option K) (detected : Nat) :
    Dispatcher.walkDown impl detected = none ↔ ∀ j, j ≤ detected → impl j = none := by
  induction detected with
  | zero =>
    constructor
    · intro h j hj
      have h0 : j = 0 := Nat.le_zero.mp hj
      subst h0
      simpa [Dispatcher.walkDown] using h
    · intro h
      simpa [Dispatcher.walkDown] using h 0 (Nat.le_refl 0)
  | succ d ih =>
    cases hd : impl (d + 1) with
    | some kernel =>
      simp only [Dispatcher.walkDown, hd]
      constructor
      · intro h
        cases h
      · intro h
        have := h (d + 1) (Nat.le_refl _)
        rw [hd] at this
        cases this
    | none =>
      simp only [Dispatcher.walkDown, hd]
      rw [ih]
      constructor
      · intro h j hj
        rcases Nat.lt_or_ge d j with hlt | hge
        · have heq : j = d + 1 := Nat.le_antisymm hj hlt
          subst heq
          exact hd
        · exact h j hge
      · intro h j hj
        exact h j (Nat.le_succ_of_le hj)

theorem BoundContainer.step_kernel {Me K C L : Type} (invoke : Me → K → C → Outcome C L)
    (b : BoundContainer K C) (st : Step Me C) : (b.step invoke st)._kernel = b._kernel := by
  cases st <;> rfl

theorem BoundContainer.run_kernel {Me K C L : Type} (invoke : Me → K → C → Outcome C L)
    (steps : List (Step Me C)) (b : BoundContainer K C) :
    (b.run invoke steps)._kernel = b._kernel := by
  induction steps generalizing b with
  | nil => rfl
  | cons st rest ih =>
    have hrun : b.run invoke (st :: rest) = (b.step invoke st).run invoke rest := rfl
    rw [hrun, ih, BoundContainer.step_kernel]

theorem BoundContainer.kernelsUsed_all {Me K C L : Type} (invoke : Me → K → C → Outcome C L)
    (steps : List (Step Me C)) (b : BoundContainer K C) :
    ∀ k ∈ BoundContainer.kernelsUsed invoke b steps, k = b._kernel := by
  induction steps generalizing b with
  | nil =>
    intro k hk
    simp [BoundContainer.kernelsUsed] at hk
  | cons st rest ih =>
    intro k hk
    cases st with
    | call m =>
      simp only [BoundContainer.kernelsUsed, List.mem_cons] at hk
      rcases hk with hk | hk
      · exact hk
      · rw [ih _ k hk, BoundContainer.step_kernel]
    | rebind f =>
      simp only [BoundContainer.kernelsUsed] at hk
      rw [ih _ k hk, BoundContainer.step_kernel]

theorem BoundContainer.kernelsUsed_replicate {Me K C L : Type}
    (invoke : Me → K → C → Outcome C L) (steps : List (Step Me C)) (b : BoundContainer K C) :
    BoundContainer.kernelsUsed invoke b steps =
      List.replicate (BoundContainer.kernelsUsed invoke b steps).length b._kernel :=
  List.eq_replicate_iff.mpr ⟨rfl, BoundContainer.kernelsUsed_all invoke steps b⟩

/-- C15: construction of a container for a precision and a method on a CPU of the detected
feature level binds exactly one kernel: when `level` is the highest feature level, not above
the detected one, for which the table has an implementation, and `kernel` is that
implementation, construction succeeds and `_kernel` is `kernel`. -/
theorem construct_binds_highest_level {Pr Me K C : Type} (table : KernelTable Pr Me K)
    (precision : Pr) (method : Me) (detected : Nat) (fields : C) (level : Nat) (kernel : K)
    (hle : level ≤ detected) (himpl : table precision method level = some kernel)
    (habove : ∀ j, level < j → j ≤ detected → table precision method j = none) :
    BoundContainer.construct table precision method detected fields =
      Except.ok { _kernel := kernel, fields := fields } := by
  unfold BoundContainer.construct
  rw [Dispatcher.walkDown_of_highest (table precision method) kernel level himpl detected hle
    habove]

/-- The dispatch at a table with implementations at the levels `0` and `2` only, on a CPU
of level `3`: the kernel of level `2` is bound. -/
theorem construct_binds_highest_level_witness :
    (2 ≤ 3 ∧ twoLevelTable () () 2 = some 102 ∧
      ∀ j, 2 < j → j ≤ 3 → twoLevelTable () () j = none) ∧
      BoundContainer.construct twoLevelTable () () 3 freshOnline =
        Except.ok { _kernel := 102, fields := freshOnline } :=
  have habove : ∀ j, 2 < j → j ≤ 3 → twoLevelTable () () j = none := by
    intro j h1 h2
    have hj : j = 3 := by omega
    subst hj
    rfl
  ⟨⟨by decide, rfl, habove⟩,
    construct_binds_highest_level twoLevelTable () () 3 freshOnline 2 102 (by decide) rfl habove⟩

/-- C16: the kernel of a container never changes after construction. Whatever methods of a
batch, an online or a distributed container are called, in any order and number, and
whatever arguments the caller binds in between, `_kernel` afterwards is `_kernel` before,
and every one of the calls used that kernel. -/
theorem bound_kernel_never_changes {T M P : Type}
    (batch : BoundContainer (BatchKernel T M P) (BatchContainer T M P))
    (batchSteps : List (Step Unit (BatchContainer T M P)))
    (online : BoundContainer (OnlineKernel T M P) (OnlineContainer T M P))
    (onlineSteps : List (Step TrainMethod (OnlineContainer T M P)))
    (distributed : BoundContainer (DistributedKernel M P) (DistributedContainer M P))
    (distributedSteps : List (Step TrainMethod (DistributedContainer M P))) :
    ((batch.run BatchContainer.invoke batchSteps)._kernel = batch._kernel ∧
      BoundContainer.kernelsUsed BatchContainer.invoke batch batchSteps =
        List.replicate (BoundContainer.kernelsUsed BatchContainer.invoke batch batchSteps).length
          batch._kernel) ∧
    ((online.run OnlineContainer.invoke onlineSteps)._kernel = online._kernel ∧
      BoundContainer.kernelsUsed OnlineContainer.invoke online onlineSteps =
        List.replicate
          (BoundContainer.kernelsUsed OnlineContainer.invoke online onlineSteps).length
          online._kernel) ∧
    ((distributed.run DistributedContainer.invoke distributedSteps)._kernel =
        distributed._kernel ∧
      BoundContainer.kernelsUsed DistributedContainer.invoke distributed distributedSteps =
        List.replicate
          (BoundContainer.kernelsUsed DistributedContainer.invoke distributed
            distributedSteps).length
          distributed._kernel) :=
  ⟨⟨BoundContainer.run_kernel _ _ _, BoundContainer.kernelsUsed_replicate _ _ _⟩,
    ⟨BoundContainer.run_kernel _ _ _, BoundContainer.kernelsUsed_replicate _ _ _⟩,
    ⟨BoundContainer.run_kernel _ _ _, BoundContainer.kernelsUsed_replicate _ _ _⟩⟩

/-! ## Exceptions, `setCanThrow` and the order of adding and throwing -/

theorem ErrorCollection.throwIfCan_what (env : Env) (h : Heap) (self : ErrorCollection) :
    (self.throwIfCan env h).thrown.map Exception.what =
      if self.throwMode env then some (self.getDescription env h) else none := by
  unfold ErrorCollection.throwIfCan ErrorCollection.throwMode ErrorCollection.canThrow
  cases env.DAAL_NOTHROW_EXCEPTIONS <;> cases self._canThrow <;> rfl

/-- C17: in throw mode the exception that `ErrorCollection::add` raises has as its `what()`
text the `getDescription()` of the collection taken after the new error has been added, for
`add(id)` and for `add(ErrorPtr)`; otherwise no exception is raised. And
`Exception::getException(d).what()` is `d` for every description `d`. -/
theorem exception_carries_description (env : Env) (h : Heap) (self : ErrorCollection)
    (id : ErrorID) (e : Error) (d : String) :
    ((self.add env h id).thrown.map Exception.what =
        if self.throwMode env then some (self.getDescription env (self.add env h id).heap)
        else none) ∧
      self.getDescription env (self.add env h id).heap =
        env.getDescription ((h.cell self._errors).add id) ∧
      ((self.addError env h e).thrown.map Exception.what =
        if self.throwMode env then some (self.getDescription env (self.addError env h e).heap)
        else none) ∧
      self.getDescription env (self.addError env h e).heap =
        env.getDescription ((h.cell self._errors).addError e) ∧
      (Exception.getException d).what = d := by
  refine ⟨?_, ?_, ?_, ?_, rfl⟩
  · rw [ErrorCollection.add, ErrorCollection.throwIfCan_heap]
    exact ErrorCollection.throwIfCan_what env _ self
  · simp [ErrorCollection.add, ErrorCollection.throwIfCan_heap, ErrorCollection.getDescription,
      Heap.store_cell_same]
  · rw [ErrorCollection.addError, ErrorCollection.throwIfCan_heap]
    exact ErrorCollection.throwIfCan_what env _ self
  · simp [ErrorCollection.addError, ErrorCollection.throwIfCan_heap,
      ErrorCollection.getDescription, Heap.store_cell_same]

/-- C18: `ErrorCollection::setCanThrow(b)` returns the value that `canThrow()` had before
the call and makes `canThrow()` equal to `b`. It leaves the collected errors as they are:
the collection points to the same errors, with the same size and the same contents. A
second `setCanThrow` with the value the first returned restores the object and returns
`b`. -/
theorem setCanThrow_frame (h : Heap) (self : ErrorCollection) (b : Bool) :
    (self.setCanThrow b).1 = self.canThrow ∧
      (self.setCanThrow b).2.canThrow = b ∧
      (self.setCanThrow b).2.getErrors = self.getErrors ∧
      (self.setCanThrow b).2.size h = self.size h ∧
      h.cell (self.setCanThrow b).2.getErrors = h.cell self.getErrors ∧
      ((self.setCanThrow b).2.setCanThrow (self.setCanThrow b).1).2 = self ∧
      ((self.setCanThrow b).2.setCanThrow (self.setCanThrow b).1).1 = b :=
  ⟨rfl, rfl, rfl, rfl, rfl, rfl, rfl⟩

/-- C20: in throw mode `ErrorCollection::add` is not atomic. The error is appended to the
underlying `KernelErrorCollection` before the exception is raised: the call raises, and
afterwards the collection holds the errors it held with the new error as the last one, its
size is one greater than before, and `isEmpty()` is false. -/
theorem add_appends_before_throwing (env : Env) (h : Heap) (self : ErrorCollection)
    (id : ErrorID) (hmode : self.throwMode env = true) :
    (self.add env h id).raised = true ∧
      (self.add env h id).heap.cell self._errors = (h.cell self._errors).add id ∧
      self.size (self.add env h id).heap = self.size h + 1 ∧
      self.isEmpty (self.add env h id).heap = false := by
  refine ⟨?_, ?_, ErrorCollection.size_after_add env h self id, ?_⟩
  · rw [← hmode]
    exact ErrorCollection.throwIfCan_raised env _ self
  · simp [ErrorCollection.add, ErrorCollection.throwIfCan_heap, Heap.store_cell_same]
  · rw [ErrorCollection.isEmpty_eq, ErrorCollection.size_after_add]
    rfl

/-- Adding to a default-constructed collection with exceptions compiled in: the call
raises, and the size goes from `0` to `1`. -/
theorem add_appends_before_throwing_witness :
    twoCollections.2.2.throwMode throwingEnv = true ∧
      twoCollections.2.2.size twoCollections.1 = 0 ∧
      (twoCollections.2.2.add throwingEnv twoCollections.1 7).raised = true ∧
      (twoCollections.2.2.add throwingEnv twoCollections.1 7).heap.cell
          twoCollections.2.2._errors =
        (twoCollections.1.cell twoCollections.2.2._errors).add 7 ∧
      twoCollections.2.2.size (twoCollections.2.2.add throwingEnv twoCollections.1 7).heap =
        twoCollections.2.2.size twoCollections.1 + 1 ∧
      twoCollections.2.2.isEmpty (twoCollections.2.2.add throwingEnv twoCollections.1 7).heap =
        false :=
  ⟨rfl, rfl, add_appends_before_throwing throwingEnv twoCollections.1 twoCollections.2.2 7 rfl⟩

/-! ## The parameter of the three-dimensional maximum pooling layer -/

/-- C19: `maximum_pooling3d::Parameter(firstIndex, secondIndex, thirdIndex)` is the
`pooling3d::Parameter` constructed with those indices, the kernel sizes `2, 2, 2`, the
strides `2, 2, 2` and the paddings `0, 0, 0`; with all twelve arguments given, each one
reaches the base constructor in its own position; with some optional arguments given, those
take their positions and the defaults fill the rest. -/
theorem maximum_pooling3d_forwards (firstIndex secondIndex thirdIndex : Nat)
    (a1 a2 a3 a4 a5 a6 a7 a8 a9 : Nat) :
    maximum_pooling3d.Parameter firstIndex secondIndex thirdIndex [] =
        { firstIndex := firstIndex, secondIndex := secondIndex, thirdIndex := thirdIndex
          firstKernelSize := 2, secondKernelSize := 2, thirdKernelSize := 2
          firstStride := 2, secondStride := 2, thirdStride := 2
          firstPadding := 0, secondPadding := 0, thirdPadding := 0 } ∧
      maximum_pooling3d.Parameter firstIndex secondIndex thirdIndex
          [a1, a2, a3, a4, a5, a6, a7, a8, a9] =
        { firstIndex := firstIndex, secondIndex := secondIndex, thirdIndex := thirdIndex
          firstKernelSize := a1, secondKernelSize := a2, thirdKernelSize := a3
          firstStride := a4, secondStride := a5, thirdStride := a6
          firstPadding := a7, secondPadding := a8, thirdPadding := a9 } ∧
      maximum_pooling3d.Parameter firstIndex secondIndex thirdIndex [a1, a2, a3, a4] =
        { firstIndex := firstIndex, secondIndex := secondIndex, thirdIndex := thirdIndex
          firstKernelSize := a1, secondKernelSize := a2, thirdKernelSize := a3
          firstStride := a4, secondStride := 2, thirdStride := 2
          firstPadding := 0, secondPadding := 0, thirdPadding := 0 } :=
  ⟨rfl, rfl, rfl⟩

/-! ## Adding collections, and copies of a collection -/

theorem ErrorCollection.throwIfCan_eq_of_not_throwMode (env : Env) (h : Heap)
    (self : ErrorCollection) (hmode : self.throwMode env = false) :
    (self.throwIfCan env h).thrown = none := by
  have hr := ErrorCollection.throwIfCan_raised env h self
  rw [hmode] at hr
  simpa [AddOutcome.raised] using hr

theorem KernelErrorCollection.isEmpty_iff (k : KernelErrorCollection) :
    k.isEmpty = true ↔ k.items = [] := by
  simp [KernelErrorCollection.isEmpty, KernelErrorCollection.size]

theorem ErrorCollection.addKernelErrorCollection_raised (env : Env) (h : Heap)
    (self : ErrorCollection) (e : KernelErrorCollectionPtr) :
    (self.addKernelErrorCollection env h e).raised =
      (!(h.cell e).isEmpty && self.throwMode env) := by
  unfold ErrorCollection.addKernelErrorCollection
  cases hE : (h.cell e).isEmpty
  · simp [ErrorCollection.throwIfCan_raised]
  · simp [AddOutcome.raised]

theorem ErrorCollection.addKernelErrorCollection_items (env : Env) (h : Heap)
    (self : ErrorCollection) (e : KernelErrorCollectionPtr) :
    ((self.addKernelErrorCollection env h e).heap.cell self._errors).items =
      (h.cell self._errors).items ++ (h.cell e).items := by
  unfold ErrorCollection.addKernelErrorCollection
  cases hE : (h.cell e).isEmpty
  · simp [ErrorCollection.throwIfCan_heap, Heap.store_cell_same,
      KernelErrorCollection.addCollection]
  · have hnil : (h.cell e).items = [] := (KernelErrorCollection.isEmpty_iff _).mp hE
    simp [hnil]

theorem ErrorCollection.addErrorCollection_eq (env : Env) (h : Heap) (self e : ErrorCollection) :
    self.addErrorCollection env h e = self.addKernelErrorCollection env h e.getErrors := rfl

theorem ErrorCollection.addKernelErrorCollection_of_isEmpty (env : Env) (h : Heap)
    (self : ErrorCollection) (e : KernelErrorCollectionPtr) (hE : (h.cell e).isEmpty = true) :
    (self.addKernelErrorCollection env h e).heap = h ∧
      (self.addKernelErrorCollection env h e).thrown = none := by
  unfold ErrorCollection.addKernelErrorCollection
  simp [hE]

theorem ErrorCollection.size_after_addKernelErrorCollection (env : Env) (h : Heap)
    (self : ErrorCollection) (e : KernelErrorCollectionPtr) :
    self.size (self.addKernelErrorCollection env h e).heap = self.size h + (h.cell e).size := by
  simp [ErrorCollection.size, KernelErrorCollection.size,
    ErrorCollection.addKernelErrorCollection_items]

/-- C21: adding an empty `ErrorCollection` or an empty `KernelErrorCollection` to an
`ErrorCollection` changes nothing and raises nothing, whatever `canThrow()` is: the heap and
so the size of the target are as before. Adding one that is not empty raises exactly when
the target is in throw mode and leaves the target not empty. In both cases the target holds
its errors followed by those of the collection added. -/
theorem add_collection_empty_or_not (env : Env) (h : Heap) (self e : ErrorCollection)
    (p : KernelErrorCollectionPtr) :
    (if e.isEmpty h = true then
        (self.addErrorCollection env h e).raised = false ∧
          (self.addErrorCollection env h e).heap = h ∧
          self.size (self.addErrorCollection env h e).heap = self.size h
      else
        (self.addErrorCollection env h e).raised = self.throwMode env ∧
          self.isEmpty (self.addErrorCollection env h e).heap = false) ∧
      (if (h.cell p).isEmpty = true then
        (self.addKernelErrorCollection env h p).raised = false ∧
          (self.addKernelErrorCollection env h p).heap = h ∧
          self.size (self.addKernelErrorCollection env h p).heap = self.size h
      else
        (self.addKernelErrorCollection env h p).raised = self.throwMode env ∧
          self.isEmpty (self.addKernelErrorCollection env h p).heap = false) ∧
      ((self.addErrorCollection env h e).heap.cell self._errors).items =
        (h.cell self._errors).items ++ (h.cell e.getErrors).items ∧
      ((self.addKernelErrorCollection env h p).heap.cell self._errors).items =
        (h.cell self._errors).items ++ (h.cell p).items := by
  have key : ∀ q : KernelErrorCollectionPtr,
      if (h.cell q).isEmpty = true then
        (self.addKernelErrorCollection env h q).raised = false ∧
          (self.addKernelErrorCollection env h q).heap = h ∧
          self.size (self.addKernelErrorCollection env h q).heap = self.size h
      else
        (self.addKernelErrorCollection env h q).raised = self.throwMode env ∧
          self.isEmpty (self.addKernelErrorCollection env h q).heap = false := by
    intro q
    split
    next hE =>
      have hno := ErrorCollection.addKernelErrorCollection_of_isEmpty env h self q hE
      refine ⟨?_, hno.1, ?_⟩
      · rw [ErrorCollection.addKernelErrorCollection_raised, hE]
        rfl
      · rw [hno.1]
    next hE =>
      have hE2 : (h.cell q).isEmpty = false := by simpa using hE
      refine ⟨?_, ?_⟩
      · rw [ErrorCollection.addKernelErrorCollection_raised, hE2]
        simp
      · have hpos : (h.cell q).size ≠ 0 := by
          simpa [KernelErrorCollection.isEmpty] using hE2
        rw [ErrorCollection.isEmpty_eq, ErrorCollection.size_after_addKernelErrorCollection]
        simp [hpos]
  exact ⟨key e.getErrors, key p,
    ErrorCollection.addKernelErrorCollection_items env h self e.getErrors,
    ErrorCollection.addKernelErrorCollection_items env h self p⟩

/-- C22: a copy of an `ErrorCollection` has the mode flag of the original and points to the
same list of errors, so through any heap both have the same size. After an error has been
added to the original or to the copy, both have the size of before plus one and see the
same errors; this also holds when the flag of the copy has been switched off in between. -/
theorem copy_shares_errors (env : Env) (h : Heap) (c : ErrorCollection) (id : ErrorID) :
    c.copyConstruct.canThrow = c.canThrow ∧
      c.copyConstruct.getErrors = c.getErrors ∧
      c.copyConstruct.size h = c.size h ∧
      c.size (c.copyConstruct.add env h id).heap = c.size h + 1 ∧
      c.copyConstruct.size (c.copyConstruct.add env h id).heap = c.size h + 1 ∧
      c.copyConstruct.size (c.add env h id).heap = c.size h + 1 ∧
      c.size (c.add env h id).heap = c.size h + 1 ∧
      (c.add env h id).heap.cell c.copyConstruct.getErrors = (h.cell c.getErrors).add id ∧
      (c.copyConstruct.add env h id).heap.cell c.getErrors = (h.cell c.getErrors).add id ∧
      ((c.copyConstruct.setCanThrow false).2.add env h id).raised = false ∧
      c.size ((c.copyConstruct.setCanThrow false).2.add env h id).heap = c.size h + 1 := by
  have hsize : ∀ (a : ErrorCollection), a._errors = c._errors →
      c.size (a.add env h id).heap = c.size h + 1 := by
    intro a ha
    have := ErrorCollection.size_after_add env h a id
    simpa [ErrorCollection.size, ha] using this
  have hcell : ∀ (a : ErrorCollection), a._errors = c._errors →
      (a.add env h id).heap.cell c._errors = (h.cell c._errors).add id := by
    intro a ha
    simp [ErrorCollection.add, ErrorCollection.throwIfCan_heap, ha, Heap.store_cell_same]
  refine ⟨rfl, rfl, rfl, hsize _ rfl, hsize _ rfl, hsize _ rfl, hsize _ rfl, hcell _ rfl,
    hcell _ rfl, ?_, hsize _ rfl⟩
  rw [ErrorCollection.add]
  rw [show ∀ hp, ((c.copyConstruct.setCanThrow false).2.throwIfCan env hp).raised =
    (c.copyConstruct.setCanThrow false).2.throwMode env from
      fun hp => ErrorCollection.throwIfCan_raised env hp _]
  simp [ErrorCollection.throwMode, ErrorCollection.canThrow, ErrorCollection.setCanThrow]

/-! ## The buffer of `cInit` and `cSetData` -/

theorem toSizeT_of_nonneg (v : Int) (h0 : 0 ≤ v) (h1 : v < 2 ^ 64) : toSizeT v = v.toNat := by
  unfold toSizeT
  rw [Int.emod_eq_of_lt h0 h1]

theorem daal_malloc_some (contents : Nat → Byte) (size : Nat) :
    daal_malloc (some contents) size = some ((List.range size).map contents) := rfl

theorem copyLoop_spec (data : List Byte) :
    ∀ (count i : Nat) (inner : List Byte), i + count ≤ data.length → i + count ≤ inner.length →
      ∃ out, copyLoop data count i inner = some out ∧ out.length = inner.length ∧
        ∀ j, out[j]? = if i ≤ j ∧ j < i + count then data[j]? else inner[j]? := by
  intro count
  induction count with
  | zero =>
    intro i inner _ _
    refine ⟨inner, rfl, rfl, ?_⟩
    intro j
    have hfalse : ¬ (i ≤ j ∧ j < i + 0) := by omega
    rw [if_neg hfalse]
  | succ count ih =>
    intro i inner hd hi
    have hid : i < data.length := by omega
    have hii : i < inner.length := by omega
    obtain ⟨out, hout, hlen, hget⟩ :=
      ih (i + 1) (inner.set i data[i]) (by omega) (by rw [List.length_set]; omega)
    refine ⟨out, ?_, ?_, ?_⟩
    · simp only [copyLoop, List.getElem?_eq_getElem hid, hii, if_true]
      exact hout
    · rw [hlen, List.length_set]
    · intro j
      rw [hget j]
      by_cases hij : i = j
      · subst hij
        have h1 : ¬ (i + 1 ≤ i ∧ i < i + 1 + count) := by omega
        have h2 : i ≤ i ∧ i < i + (count + 1) := by omega
        rw [if_neg h1, if_pos h2, List.getElem?_set_self hii, List.getElem?_eq_getElem hid]
      · rw [List.getElem?_set_ne hij]
        by_cases hc : i + 1 ≤ j ∧ j < i + 1 + count
        · have hc2 : i ≤ j ∧ j < i + (count + 1) := by omega
          rw [if_pos hc, if_pos hc2]
        · have hc2 : ¬ (i ≤ j ∧ j < i + (count + 1)) := by omega
          rw [if_neg hc, if_neg hc2]

theorem fillBuffer_eq (data : List Byte) (n : Int) (inner : List Byte) (h0 : 0 ≤ n)
    (hmax : n < 2 ^ 64) (hdata : n.toNat ≤ data.length) (hinner : inner.length = n.toNat + 1) :
    fillBuffer data n inner = some (data.take n.toNat ++ [0]) := by
  obtain ⟨out, hout, hlen, hget⟩ :=
    copyLoop_spec data n.toNat 0 inner (by omega) (by omega)
  have hn : n.toNat < out.length := by omega
  unfold fillBuffer
  rw [toSizeT_of_nonneg n h0 hmax, hout]
  simp only [writeTerminator]
  rw [if_pos ⟨h0, hn⟩]
  congr 1
  apply List.ext_getElem?
  intro j
  have htake : (data.take n.toNat).length = n.toNat := by
    rw [List.length_take]
    omega
  by_cases hj : j < n.toNat
  · have hne : n.toNat ≠ j := by omega
    rw [List.getElem?_set_ne hne, hget j, if_pos ⟨Nat.zero_le j, by omega⟩,
      List.getElem?_append_left (by omega), List.getElem?_take_of_lt hj]
  · by_cases hjn : j = n.toNat
    · subst hjn
      rw [List.getElem?_set_self hn, List.getElem?_append_right (by omega), htake]
      simp
    · have hbig : n.toNat + 1 ≤ j := by omega
      rw [List.getElem?_eq_none (by rw [List.length_set]; omega),
        List.getElem?_eq_none (by rw [List.length_append, htake]; simpa using hbig)]

theorem allocationSize_of_nonneg (n : Int) (h0 : 0 ≤ n) (hmax : n + 1 < 2 ^ 63) :
    allocationSize n = some (n.toNat + 1) := by
  unfold allocationSize
  rw [if_pos hmax, toSizeT_of_nonneg (n + 1) (by omega) (by omega),
    Int.toNat_add h0 (by decide)]
  rfl

/-- C23: for a `jlong` `n` that is not negative and a source string `data` of at least `n`
bytes, when the allocation succeeds, `cInit` and `cSetData` return, and the buffer they hand
to the data source (to its constructor, to `setData`) is the block of `n + 1` bytes just
allocated, holding the first `n` bytes of `data`, in order, and then the terminator `0`,
whatever the block held before. -/
theorem string_data_source_buffer {DS : Type} (cls : StringDataSourceClass DS)
    (ErrorMemoryAllocationFailed : ErrorID) (contents : Nat → Byte) (ds : DS)
    (data : List Byte) (n : Int) (h0 : 0 ≤ n) (hmax : n + 1 < 2 ^ 63)
    (hdata : Int.toNat n ≤ data.length) :
    (List.take (Int.toNat n) data ++ [0]).length = Int.toNat n + 1 ∧
      (∀ i, i < Int.toNat n → (List.take (Int.toNat n) data ++ [0])[i]? = data[i]?) ∧
      (List.take (Int.toNat n) data ++ [0])[Int.toNat n]? = some 0 ∧
      Java_com_intel_daal_data_1management_data_1source_StringDataSource_cInit cls ErrorMemoryAllocationFailed (some contents) data n =
        (if !(cls.status (cls.construct (List.take (Int.toNat n) data ++ [0]))).ok then
          some
            { handle := none
              events :=
                [JniEvent.daal_malloc (Int.toNat n + 1), JniEvent.ReleaseStringUTFChars,
                  JniEvent.newStringDataSource (List.take (Int.toNat n) data ++ [0]), JniEvent.deleteDataSource,
                  JniEvent.DAAL_CHECK_THROW (cls.status (cls.construct (List.take (Int.toNat n) data ++ [0])))] }
        else
          some
            { handle := some (cls.construct (List.take (Int.toNat n) data ++ [0]))
              events :=
                [JniEvent.daal_malloc (Int.toNat n + 1), JniEvent.ReleaseStringUTFChars,
                  JniEvent.newStringDataSource (List.take (Int.toNat n) data ++ [0])] }) ∧
      Java_com_intel_daal_data_1management_data_1source_StringDataSource_cSetData cls ErrorMemoryAllocationFailed (some contents) ds data n =
        some
          { ds := cls.setData (cls.resetData ds) (List.take (Int.toNat n) data ++ [0])
            events :=
              [JniEvent.daal_malloc (Int.toNat n + 1), JniEvent.ReleaseStringUTFChars, JniEvent.resetData,
                JniEvent.setData (List.take (Int.toNat n) data ++ [0]),
                JniEvent.DAAL_CHECK_THROW
                  (cls.status (cls.setData (cls.resetData ds) (List.take (Int.toNat n) data ++ [0])))] } := by
  have hbuf : fillBuffer data n ((List.range (Int.toNat n + 1)).map contents) =
      some (List.take (Int.toNat n) data ++ [0]) :=
    fillBuffer_eq data n _ h0 (by omega) hdata (by simp)
  have htake : (List.take (Int.toNat n) data).length = Int.toNat n := by
    rw [List.length_take]
    omega
  refine ⟨?_, ?_, ?_, ?_, ?_⟩
  · rw [List.length_append, htake]
    rfl
  · intro i hi
    rw [List.getElem?_append_left (by omega), List.getElem?_take_of_lt hi]
  · rw [List.getElem?_append_right (by omega), htake]
    simp
  · simp only [Java_com_intel_daal_data_1management_data_1source_StringDataSource_cInit,
      allocationSize_of_nonneg n h0 hmax, daal_malloc_some, hbuf]
  · simp only [Java_com_intel_daal_data_1management_data_1source_StringDataSource_cSetData,
      allocationSize_of_nonneg n h0 hmax, daal_malloc_some, hbuf]

/-- The buffer for the first two bytes of `hi!`: three bytes, `104`, `105` and `0`. -/
theorem string_data_source_buffer_witness :
    ((0 : Int) ≤ 2 ∧ (2 : Int) + 1 < 2 ^ 63 ∧ Int.toNat 2 ≤ hiBytes.length) ∧
      List.take (Int.toNat 2) hiBytes ++ [0] = [104, 105, 0] ∧
      (List.take (Int.toNat 2) hiBytes ++ [0]).length = Int.toNat 2 + 1 ∧
        (∀ i, i < Int.toNat 2 → (List.take (Int.toNat 2) hiBytes ++ [0])[i]? = hiBytes[i]?) ∧
        (List.take (Int.toNat 2) hiBytes ++ [0])[Int.toNat 2]? = some 0 ∧
        Java_com_intel_daal_data_1management_data_1source_StringDataSource_cInit bufferSource (-2001) (some (fun _ => 255)) hiBytes 2 =
          (if !(bufferSource.status (bufferSource.construct (List.take (Int.toNat 2) hiBytes ++ [0]))).ok then
            some
              { handle := none
                events :=
                  [JniEvent.daal_malloc (Int.toNat 2 + 1), JniEvent.ReleaseStringUTFChars,
                    JniEvent.newStringDataSource (List.take (Int.toNat 2) hiBytes ++ [0]), JniEvent.deleteDataSource,
                    JniEvent.DAAL_CHECK_THROW (bufferSource.status (bufferSource.construct (List.take (Int.toNat 2) hiBytes ++ [0])))] }
          else
            some
              { handle := some (bufferSource.construct (List.take (Int.toNat 2) hiBytes ++ [0]))
                events :=
                  [JniEvent.daal_malloc (Int.toNat 2 + 1), JniEvent.ReleaseStringUTFChars,
                    JniEvent.newStringDataSource (List.take (Int.toNat 2) hiBytes ++ [0])] }) ∧
        Java_com_intel_daal_data_1management_data_1source_StringDataSource_cSetData bufferSource (-2001) (some (fun _ => 255)) [1, 2, 3] hiBytes 2 =
          some
            { ds := bufferSource.setData (bufferSource.resetData [1, 2, 3]) (List.take (Int.toNat 2) hiBytes ++ [0])
              events :=
                [JniEvent.daal_malloc (Int.toNat 2 + 1), JniEvent.ReleaseStringUTFChars, JniEvent.resetData,
                  JniEvent.setData (List.take (Int.toNat 2) hiBytes ++ [0]),
                  JniEvent.DAAL_CHECK_THROW
                    (bufferSource.status (bufferSource.setData (bufferSource.resetData [1, 2, 3]) (List.take (Int.toNat 2) hiBytes ++ [0])))] } :=
  ⟨⟨by decide, by decide, by decide⟩, rfl,
    string_data_source_buffer bufferSource (-2001) (fun _ => 255) [1, 2, 3] hiBytes 2
      (by decide) (by decide) (by decide)⟩

/-- C24: when the allocation of the buffer fails, `cSetData` passes the status of
`ErrorMemoryAllocationFailed` to `DAAL_CHECK_THROW` and returns without a call of
`resetData()` or `setData()`, so the data source is as before; `cInit` does the same,
constructs no data source and returns the handle `0`. -/
theorem allocation_failure_changes_nothing {DS : Type} (cls : StringDataSourceClass DS)
    (ErrorMemoryAllocationFailed : ErrorID) (ds : DS) (data : List Byte) (n : Int)
    (hmax : n + 1 < 2 ^ 63) :
    Java_com_intel_daal_data_1management_data_1source_StringDataSource_cSetData cls ErrorMemoryAllocationFailed none ds data n =
        some
          { ds := ds
            events :=
              [JniEvent.daal_malloc (toSizeT (n + 1)), JniEvent.ReleaseStringUTFChars,
                JniEvent.DAAL_CHECK_THROW (Status.ofError ErrorMemoryAllocationFailed)] } ∧
      Java_com_intel_daal_data_1management_data_1source_StringDataSource_cInit cls ErrorMemoryAllocationFailed none data n =
        some
          { handle := none
            events :=
              [JniEvent.daal_malloc (toSizeT (n + 1)), JniEvent.ReleaseStringUTFChars,
                JniEvent.DAAL_CHECK_THROW (Status.ofError ErrorMemoryAllocationFailed)] } := by
  have hsize : allocationSize n = some (toSizeT (n + 1)) := if_pos hmax
  simp only [Java_com_intel_daal_data_1management_data_1source_StringDataSource_cSetData,
    Java_com_intel_daal_data_1management_data_1source_StringDataSource_cInit, hsize, daal_malloc]
  exact ⟨rfl, rfl⟩

/-- A failed allocation for the four bytes of `hi!` with its terminator: the data source
keeps the buffer `1, 2, 3`. -/
theorem allocation_failure_changes_nothing_witness :
    (4 : Int) + 1 < 2 ^ 63 ∧
      Java_com_intel_daal_data_1management_data_1source_StringDataSource_cSetData bufferSource (-2001) none [1, 2, 3] hiBytes 4 =
          some
            { ds := [1, 2, 3]
              events :=
                [JniEvent.daal_malloc (toSizeT (4 + 1)), JniEvent.ReleaseStringUTFChars,
                  JniEvent.DAAL_CHECK_THROW (Status.ofError (-2001))] } ∧
        Java_com_intel_daal_data_1management_data_1source_StringDataSource_cInit bufferSource (-2001) none hiBytes 4 =
          some
            { handle := none
              events :=
                [JniEvent.daal_malloc (toSizeT (4 + 1)), JniEvent.ReleaseStringUTFChars,
                  JniEvent.DAAL_CHECK_THROW (Status.ofError (-2001))] } :=
  ⟨by decide,
    allocation_failure_changes_nothing bufferSource (-2001) [1, 2, 3] hiBytes 4 (by decide)⟩

end Daal
